import Mathlib

/-!
Verification development for the task-extraction pipeline of the repository:
`backend/ai/nlp/task_parser.py` (TaskParser) and `backend/utils/date_parser.py`
(DateParser).  Python strings are modelled as lists of characters, Python
regular expressions by a small backtracking engine over pattern syntax trees
transcribed from the source, Python `datetime` values by a record holding a
day number (days since 1970-01-01) plus time-of-day fields, and Python
floats in the duration estimator by exact IEEE-754 binary64 emulation.
External collaborators (the spaCy annotation provider, the dateutil fuzzy
parser) are parameters of the embedded functions: a value of `none` models
an invocation that raises.
-/

/-- Python `str` modelled as a list of characters (code points). -/
abbrev PyStr := List Char

/-- Coerce a Lean string literal to the `PyStr` model. -/
def S (s : String) : PyStr := s.toList

/-- Python `str.lower()` (ASCII case folding suffices for this codebase). -/
def pyLower (s : PyStr) : PyStr := s.map Char.toLower

/-- Python `str.strip()`: drop leading and trailing whitespace. -/
def pyStrip (s : PyStr) : PyStr :=
  ((s.dropWhile Char.isWhitespace).reverse.dropWhile Char.isWhitespace).reverse

/-- Python `sub in s`: substring containment. -/
def pyIn (sub s : PyStr) : Bool :=
  (List.range (s.length + 1)).any (fun i => sub.isPrefixOf (s.drop i))

/-- Helper for `str.split()` with explicit fuel (the list length suffices). -/
def pySplitWsAux : Nat → PyStr → List PyStr
  | 0, _ => []
  | fuel + 1, s =>
    let s1 := s.dropWhile Char.isWhitespace
    match s1 with
    | [] => []
    | _ =>
      let word := s1.takeWhile (fun c => !c.isWhitespace)
      let rest := s1.dropWhile (fun c => !c.isWhitespace)
      word :: pySplitWsAux fuel rest

/-- Python `str.split()` with no argument: whitespace-separated words. -/
def pySplitWs (s : PyStr) : List PyStr := pySplitWsAux (s.length + 1) s

/-- Python `' '.join(words)`. -/
def pyJoinSpace (ws : List PyStr) : PyStr := List.intercalate [' '] ws

/-- Helper for `str.replace(old, new)` (literal, case-sensitive), fuelled. -/
def pyReplaceAux (old new : PyStr) : Nat → PyStr → PyStr
  | 0, s => s
  | _ + 1, [] => []
  | fuel + 1, c :: rest =>
    if old ≠ [] ∧ old.isPrefixOf (c :: rest) then
      new ++ pyReplaceAux old new fuel (List.drop old.length (c :: rest))
    else
      c :: pyReplaceAux old new fuel rest

/-- Python `str.replace(old, new)` for a non-empty `old`. -/
def pyReplace (s old new : PyStr) : PyStr := pyReplaceAux old new (s.length + 1) s

/-- Python `int(s)` on an optional group: error (ValueError) unless the text
is a non-empty digit string (all uses in the source are on digit groups). -/
def pyInt (s : PyStr) : Except Unit Nat :=
  if s ≠ [] ∧ s.all Char.isDigit then
    .ok (s.foldl (fun n c => n * 10 + (c.toNat - '0'.toNat)) 0)
  else .error ()

/-- Truthiness of an optional string (Python `if x:` on `str | None`). -/
def pyTruthyOptStr : Option PyStr → Bool
  | none => false
  | some s => s ≠ []

/-! ## Regular-expression engine

Patterns of the source are transcribed into syntax trees and run by a
backtracking matcher with Python `re` semantics: leftmost starting
position, alternatives tried left to right, greedy quantifiers, capturing
groups remember their most recent successful match.  All patterns in the
source are compiled or searched with `re.IGNORECASE` (or run on lower-cased
text), so character comparison is case-insensitive throughout. -/

inductive Rx where
  /-- Empty pattern. -/
  | eps : Rx
  /-- Literal character (matched case-insensitively). -/
  | ch : Char → Rx
  /-- Character class given by a predicate. -/
  | cls : (Char → Bool) → Rx
  /-- Concatenation. -/
  | seq : Rx → Rx → Rx
  /-- Alternation, left alternative preferred. -/
  | alt : Rx → Rx → Rx
  /-- Greedy Kleene star. -/
  | star : Rx → Rx
  /-- Capturing group with 1-based index. -/
  | group : Nat → Rx → Rx
  /-- Anchor `^` (no MULTILINE flag anywhere in the source). -/
  | bol : Rx
  /-- Word boundary `\b`. -/
  | wb : Rx

namespace Rx

/-- Node count, used to compute sufficient matcher fuel. -/
def size : Rx → Nat
  | eps | ch _ | cls _ | bol | wb => 1
  | seq a b | alt a b => a.size + b.size + 1
  | star a => a.size + 1
  | group _ a => a.size + 1

/-- Literal word pattern. -/
def str (s : String) : Rx :=
  (s.toList.map Rx.ch).foldr Rx.seq Rx.eps

/-- Alternation of a list of patterns (left to right). -/
def altList : List Rx → Rx
  | [] => Rx.eps
  | [r] => r
  | r :: rs => Rx.alt r (altList rs)

/-- Greedy `+`. -/
def plus (r : Rx) : Rx := Rx.seq r (Rx.star r)

/-- Greedy `?`. -/
def opt (r : Rx) : Rx := Rx.alt r Rx.eps

/-- Word character for `\b` (ASCII fragment of `\w`). -/
def isWordChar (c : Char) : Bool := c.isAlphanum || c == '_'

/-- Captured groups, most recent first. -/
abbrev Caps := List (Nat × PyStr)

/-- Backtracking matcher in continuation-passing style.  `pr` is the
character immediately before the current position (`none` at the start of
the subject), used by `^` and `\b`.  Fuel bounds the nesting depth; with
the fuel computed by `fuelFor` it is never exhausted because every starred
subpattern of the transcribed patterns consumes at least one character per
iteration (and a zero-width star iteration stops the loop). -/
def run : Nat → Rx → PyStr → Option Char → Caps →
    (PyStr → Option Char → Caps → Option (PyStr × Caps)) → Option (PyStr × Caps)
  | 0, _, _, _, _, _ => none
  | _ + 1, eps, s, pr, caps, k => k s pr caps
  | _ + 1, ch c, s, _, caps, k =>
    match s with
    | [] => none
    | x :: rest => if x.toLower = c.toLower then k rest (some x) caps else none
  | _ + 1, cls p, s, _, caps, k =>
    match s with
    | [] => none
    | x :: rest => if p x then k rest (some x) caps else none
  | fuel + 1, seq a b, s, pr, caps, k =>
    run fuel a s pr caps (fun s1 pr1 caps1 => run fuel b s1 pr1 caps1 k)
  | fuel + 1, alt a b, s, pr, caps, k =>
    match run fuel a s pr caps k with
    | some r => some r
    | none => run fuel b s pr caps k
  | fuel + 1, star a, s, pr, caps, k =>
    match run fuel a s pr caps (fun s1 pr1 caps1 =>
        if s1.length < s.length then run fuel (star a) s1 pr1 caps1 k
        else k s1 pr1 caps1) with
    | some r => some r
    | none => k s pr caps
  | fuel + 1, group i a, s, pr, caps, k =>
    run fuel a s pr caps (fun s1 pr1 caps1 =>
      k s1 pr1 ((i, s.take (s.length - s1.length)) :: caps1))
  | _ + 1, bol, s, pr, caps, k =>
    if pr.isNone then k s pr caps else none
  | _ + 1, wb, s, pr, caps, k =>
    let lw := match pr with | some c => isWordChar c | none => false
    let rw := match s with | x :: _ => isWordChar x | [] => false
    if lw ≠ rw then k s pr caps else none

/-- Fuel sufficient for matching `r` against `s`. -/
def fuelFor (r : Rx) (s : PyStr) : Nat := (s.length + 2) * (r.size + 2)

/-- Attempt a match of `r` at the current position. Returns the remaining
subject and the captures on success. -/
def matchHere (r : Rx) (s : PyStr) (pr : Option Char) : Option (PyStr × Caps) :=
  run (fuelFor r s) r s pr [] (fun s1 _ caps => some (s1, caps))

/-- Search semantics of `re.search`: try each start position from the left;
returns (matched text, captures). -/
def search (r : Rx) : PyStr → Option Char → Option (PyStr × Caps)
  | s, pr =>
    match matchHere r s pr with
    | some (rest, caps) => some (s.take (s.length - rest.length), caps)
    | none =>
      match s with
      | [] => none
      | x :: rest => search r rest (some x)

/-- Group values as returned by `match.groups()`: entry `i` is the most
recent text captured by group `i+1`, or `none` if the group did not
participate in the match. -/
def groupsOf (caps : Caps) (numGroups : Nat) : List (Option PyStr) :=
  (List.range numGroups).map fun i =>
    (caps.find? (fun p => p.1 = i + 1)).map Prod.snd

/-- Helper for `re.sub(pattern, '', text)`, fuelled by the text length. -/
def subAux (r : Rx) : Nat → PyStr → Option Char → PyStr
  | 0, s, _ => s
  | fuel + 1, s, pr =>
    match matchHere r s pr with
    | some (rest, _) =>
      if rest.length < s.length then
        subAux r fuel rest ((s.take (s.length - rest.length)).getLast?)
      else
        match s with
        | [] => []
        | x :: xs => x :: subAux r fuel xs (some x)
    | none =>
      match s with
      | [] => []
      | x :: xs => x :: subAux r fuel xs (some x)

/-- Python `re.sub(pattern, '', text)`: delete every (non-overlapping,
leftmost-first) match. -/
def subEmpty (r : Rx) (s : PyStr) : PyStr := subAux r (s.length + 1) s none

/-- Helper for `re.findall`, fuelled by the text length.  Each element of
the result is the list of group values (with non-participating groups as
the empty string, as `findall` yields); a pattern without groups yields the
whole matched text as a singleton. -/
def findallAux (r : Rx) (numGroups : Nat) : Nat → PyStr → Option Char → List (List PyStr)
  | 0, _, _ => []
  | fuel + 1, s, pr =>
    match matchHere r s pr with
    | some (rest, caps) =>
      let whole := s.take (s.length - rest.length)
      let item :=
        if numGroups = 0 then [whole]
        else (groupsOf caps numGroups).map (fun g => g.getD [])
      if rest.length < s.length then
        item :: findallAux r numGroups fuel rest whole.getLast?
      else
        match s with
        | [] => [item]
        | x :: xs => item :: findallAux r numGroups fuel xs (some x)
    | none =>
      match s with
      | [] => []
      | x :: xs => findallAux r numGroups fuel xs (some x)

/-- Python `re.findall(pattern, text)`. -/
def findall (r : Rx) (numGroups : Nat) (s : PyStr) : List (List PyStr) :=
  findallAux r numGroups (s.length + 1) s none

end Rx

/-- Character class `\d`. -/
def rxD : Rx := Rx.cls Char.isDigit

/-- Character class `\s`. -/
def rxS : Rx := Rx.cls Char.isWhitespace

/-- Character class `\w`. -/
def rxW : Rx := Rx.cls Rx.isWordChar

/-- Pattern `\d{1,2}`. -/
def rxD12 : Rx := Rx.seq rxD (Rx.opt rxD)

/-- Pattern `\d{2,4}`. -/
def rxD24 : Rx := Rx.seq rxD (Rx.seq rxD (Rx.opt (Rx.seq rxD (Rx.opt rxD))))

/-- Character class matching a slash or a hyphen (written `[\/\-]` in the
date patterns). -/
def rxSlashDash : Rx := Rx.cls (fun c => c == '/' || c == '-')

/-! ## Python `datetime` model

A `datetime` value is represented by the number of days since 1970-01-01
together with the time-of-day fields and an optional UTC offset in minutes
(`none` models a naive datetime; an offset is only ever attached by
`datetime.fromisoformat` on a timestamp carrying one).  The civil-calendar
conversions implement the standard proleptic-Gregorian day-number
algorithms that Python's `datetime.toordinal`/`fromordinal` agree with. -/

structure PyDateTime where
  days : Int
  hour : Nat := 0
  minute : Nat := 0
  second : Nat := 0
  usec : Nat := 0
  tz : Option Int := none
  deriving Repr, DecidableEq

/-- Day number (days since 1970-01-01) of a civil date, truncating-division
form of the standard algorithm. -/
def daysFromCivil (y : Int) (m d : Nat) : Int :=
  let yAdj : Int := if m ≤ 2 then y - 1 else y
  let era : Int := (if 0 ≤ yAdj then yAdj else yAdj - 399).tdiv 400
  let yoe : Nat := (yAdj - era * 400).toNat
  let mp : Nat := if 2 < m then m - 3 else m + 9
  let doy : Nat := (153 * mp + 2) / 5 + d - 1
  let doe : Nat := yoe * 365 + yoe / 4 - yoe / 100 + doy
  era * 146097 + (doe : Int) - 719468

/-- Civil date (year, month, day) of a day number. -/
def civilFromDays (z0 : Int) : Int × Nat × Nat :=
  let z : Int := z0 + 719468
  let era : Int := (if 0 ≤ z then z else z - 146096).tdiv 146097
  let doe : Nat := (z - era * 146097).toNat
  let yoe : Nat := (doe - doe / 1460 + doe / 36524 - doe / 146096) / 365
  let doy : Nat := doe - (365 * yoe + yoe / 4 - yoe / 100)
  let mp : Nat := (5 * doy + 2) / 153
  let d : Nat := doy - (153 * mp + 2) / 5 + 1
  let m : Nat := if mp < 10 then mp + 3 else mp - 9
  let y : Int := (yoe : Int) + era * 400
  (if m ≤ 2 then y + 1 else y, m, d)

/-- Leap-year test of the Gregorian calendar. -/
def isLeapYear (y : Int) : Bool := y % 4 = 0 ∧ (y % 100 ≠ 0 ∨ y % 400 = 0)

/-- Length of a month. -/
def daysInMonth (y : Int) (m : Nat) : Nat :=
  if m = 2 then (if isLeapYear y then 29 else 28)
  else if m = 4 ∨ m = 6 ∨ m = 9 ∨ m = 11 then 30
  else 31

/-- Python `datetime(year, month, day)`: `none` models the `ValueError`
raised on an out-of-range component. -/
def datetimeNew (y : Int) (m d : Nat) : Option PyDateTime :=
  if 1 ≤ y ∧ y ≤ 9999 ∧ 1 ≤ m ∧ m ≤ 12 ∧ 1 ≤ d ∧ d ≤ daysInMonth y m then
    some { days := daysFromCivil y m d }
  else none

/-- Python `datetime.weekday()`: Monday is 0.  1970-01-01 was a Thursday. -/
def PyDateTime.weekday (dt : PyDateTime) : Nat := ((dt.days + 3) % 7).toNat

/-- Python `dt.year`. -/
def PyDateTime.year (dt : PyDateTime) : Int := (civilFromDays dt.days).1

/-- Python `dt + timedelta(days=n)`. -/
def PyDateTime.addDays (dt : PyDateTime) (n : Int) : PyDateTime :=
  { dt with days := dt.days + n }

/-- Python `dt + timedelta(hours=n)` for a non-negative `n`. -/
def PyDateTime.addHours (dt : PyDateTime) (n : Nat) : PyDateTime :=
  let t := dt.hour + n
  { dt with days := dt.days + (t / 24 : Nat), hour := t % 24 }

/-- Python `dt + timedelta(minutes=n)` for a non-negative `n`. -/
def PyDateTime.addMinutes (dt : PyDateTime) (n : Nat) : PyDateTime :=
  let t := dt.minute + n
  let h := dt.hour + t / 60
  { dt with days := dt.days + (h / 24 : Nat), hour := h % 24, minute := t % 60 }

/-- Python `dt.replace(hour=0, minute=0, second=0, microsecond=0)`. -/
def PyDateTime.atMidnight (dt : PyDateTime) : PyDateTime :=
  { dt with hour := 0, minute := 0, second := 0, usec := 0 }

/-- Python `dt.replace(hour=h, minute=mi)`: validates the new fields
(`ValueError`, modelled as `none`, when out of range) and keeps the rest. -/
def PyDateTime.replaceHM (dt : PyDateTime) (h mi : Nat) : Option PyDateTime :=
  if h ≤ 23 ∧ mi ≤ 59 then some { dt with hour := h, minute := mi } else none

/-- Python `dt.replace(hour=h, minute=mi, second=0, microsecond=0)` with
validation. -/
def PyDateTime.replaceHMS0 (dt : PyDateTime) (h mi : Nat) : Option PyDateTime :=
  if h ≤ 23 ∧ mi ≤ 59 then
    some { dt with hour := h, minute := mi, second := 0, usec := 0 }
  else none

/-- Comparison key of an aware or naive datetime, in microseconds (offset
subtracted for aware values). -/
def PyDateTime.cmpKey (dt : PyDateTime) : Int :=
  ((((dt.days * 24 + dt.hour) * 60 + dt.minute - dt.tz.getD 0) * 60
      + dt.second) * 1000000 + dt.usec)

/-- Python `a < b` on datetimes: raises `TypeError` (modelled as an error)
when exactly one operand is timezone-aware. -/
def PyDateTime.lt (a b : PyDateTime) : Except Unit Bool :=
  if a.tz.isSome ≠ b.tz.isSome then .error ()
  else .ok (a.cmpKey < b.cmpKey)

/-- Decimal digits of a natural number, left-padded with zeros to `w`. -/
def padNum (w n : Nat) : PyStr :=
  let ds := (toString n).toList
  List.replicate (w - ds.length) '0' ++ ds

/-- Python `dt.strftime("%Y-%m-%d")`. -/
def strftimeYMD (dt : PyDateTime) : PyStr :=
  let c := civilFromDays dt.days
  padNum 4 c.1.toNat ++ S "-" ++ padNum 2 c.2.1 ++ S "-" ++ padNum 2 c.2.2

/-- Python `dt.isoformat()`. -/
def isoformat (dt : PyDateTime) : PyStr :=
  let date := strftimeYMD dt
  let time := padNum 2 dt.hour ++ S ":" ++ padNum 2 dt.minute ++ S ":" ++ padNum 2 dt.second
  let frac := if dt.usec ≠ 0 then S "." ++ padNum 6 dt.usec else []
  let off :=
    match dt.tz with
    | none => []
    | some o =>
      let sign := if o < 0 then S "-" else S "+"
      sign ++ padNum 2 (o.natAbs / 60) ++ S ":" ++ padNum 2 (o.natAbs % 60)
  date ++ S "T" ++ time ++ frac ++ off

/-- Two-digit number from two digit characters. -/
def twoDigits (a b : Char) : Nat :=
  (a.toNat - '0'.toNat) * 10 + (b.toNat - '0'.toNat)

/-- Python `datetime.fromisoformat` on the ISO-8601 shapes this codebase
produces and consumes: `YYYY-MM-DD`, optionally followed by a separator
character and `HH:MM[:SS[.ffffff]]`, optionally followed by a `+HH:MM` or
`-HH:MM` offset.  `none` models the `ValueError` raised on anything else. -/
def fromisoformat (s : PyStr) : Option PyDateTime :=
  match s with
  | y1 :: y2 :: y3 :: y4 :: '-' :: m1 :: m2 :: '-' :: d1 :: d2 :: rest =>
    if ([y1, y2, y3, y4, m1, m2, d1, d2].all Char.isDigit) then
      let y : Int := ((twoDigits y1 y2) * 100 + twoDigits y3 y4 : Nat)
      let mo := twoDigits m1 m2
      let da := twoDigits d1 d2
      match datetimeNew y mo da with
      | none => none
      | some base =>
        match rest with
        | [] => some base
        | _ :: h1 :: h2 :: ':' :: n1 :: n2 :: rest2 =>
          if ([h1, h2, n1, n2].all Char.isDigit) then
            let h := twoDigits h1 h2
            let mi := twoDigits n1 n2
            let withSec : Option (Nat × Nat × PyStr) :=
              match rest2 with
              | ':' :: s1 :: s2 :: rest3 =>
                if ([s1, s2].all Char.isDigit) then
                  match rest3 with
                  | '.' :: u1 :: u2 :: u3 :: u4 :: u5 :: u6 :: rest4 =>
                    if ([u1, u2, u3, u4, u5, u6].all Char.isDigit) then
                      some (twoDigits s1 s2,
                        twoDigits u1 u2 * 10000 + twoDigits u3 u4 * 100 + twoDigits u5 u6,
                        rest4)
                    else none
                  | _ => some (twoDigits s1 s2, 0, rest3)
                else none
              | _ => some (0, 0, rest2)
            match withSec with
            | none => none
            | some (sec, us, rest5) =>
              let tzOpt : Option (Option Int) :=
                match rest5 with
                | [] => some none
                | sg :: o1 :: o2 :: ':' :: o3 :: o4 :: [] =>
                  if (sg = '+' ∨ sg = '-') ∧ [o1, o2, o3, o4].all Char.isDigit then
                    let mins : Int := (twoDigits o1 o2 * 60 + twoDigits o3 o4 : Nat)
                    some (some (if sg = '-' then -mins else mins))
                  else none
                | _ => none
              match tzOpt with
              | none => none
              | some tz =>
                if h ≤ 23 ∧ mi ≤ 59 ∧ sec ≤ 59 then
                  some { base with hour := h, minute := mi, second := sec,
                                   usec := us, tz := tz }
                else none
          else none
        | _ => none
    else none
  | _ => none

/-! ## IEEE-754 binary64 emulation for the duration estimator

The estimator computes `int(d * c)` for nonnegative integers `d` and the
float literals `c ∈ {1.2, 0.8, 1.3, 1.5, 0.7}`.  Each literal denotes the
binary64 value `m / 2 ^ e` with `2 ^ 52 ≤ m < 2 ^ 53`; the product is
rounded to 53 significant bits (round to nearest, ties to even) and then
truncated, exactly as the hardware does for these operand ranges. -/

/-- Fuelled bit length (`Nat.size`, kept kernel-reducible). -/
def bitLenAux : Nat → Nat → Nat
  | 0, _ => 0
  | fuel + 1, n => if n = 0 then 0 else bitLenAux fuel (n / 2) + 1

/-- Number of binary digits of `n`. -/
def bitLen (n : Nat) : Nat := bitLenAux (n + 1) n

/-- Rounding of an integer to 53 significant bits, round to nearest with
ties to even (the binary64 significand rounding). -/
def fpRound53 (p : Nat) : Nat :=
  if bitLen p ≤ 53 then p
  else
    (if 2 ^ (bitLen p - 53 - 1) < p % 2 ^ (bitLen p - 53)
        ∨ (p % 2 ^ (bitLen p - 53) = 2 ^ (bitLen p - 53 - 1)
            ∧ p / 2 ^ (bitLen p - 53) % 2 = 1) then
      p / 2 ^ (bitLen p - 53) + 1
    else p / 2 ^ (bitLen p - 53)) * 2 ^ (bitLen p - 53)

/-- Value of `int(d * c)` where `c` is the binary64 value `m / 2 ^ e`,
`2 ^ 52 ≤ m < 2 ^ 53`, and `d < 2 ^ 53`: the exact product `d * m / 2 ^ e`
is rounded to 53 significant bits (ties to even) and truncated toward
zero. -/
def fpIntMul (d m e : Nat) : Nat := fpRound53 (d * m) / 2 ^ e

/-- The binary64 value of the literal `1.2` is `fp12m / 2 ^ 52`. -/
def fp12m : Nat := 5404319552844595

/-- The binary64 value of the literal `0.8` is `fp08m / 2 ^ 53`. -/
def fp08m : Nat := 7205759403792794

/-- The binary64 value of the literal `1.3` is `fp13m / 2 ^ 52`. -/
def fp13m : Nat := 5854679515581645

/-- The binary64 value of the literal `1.5` is `fp15m / 2 ^ 52`. -/
def fp15m : Nat := 6755399441055744

/-- The binary64 value of the literal `0.7` is `fp07m / 2 ^ 53`. -/
def fp07m : Nat := 6305039478318694

/-- Python `int(d * 1.2)`. -/
def pyIntMul12 (d : Nat) : Nat := fpIntMul d fp12m 52

/-- Python `int(d * 0.8)`. -/
def pyIntMul08 (d : Nat) : Nat := fpIntMul d fp08m 53

/-- Python `int(d * 1.3)`. -/
def pyIntMul13 (d : Nat) : Nat := fpIntMul d fp13m 52

/-- Python `int(d * 1.5)`. -/
def pyIntMul15 (d : Nat) : Nat := fpIntMul d fp15m 52

/-- Python `int(d * 0.7)`. -/
def pyIntMul07 (d : Nat) : Nat := fpIntMul d fp07m 53

/-! ## DateParser (`backend/utils/date_parser.py`)

The `DatePrecision` constants, the pattern table, the interpreter
functions, and `parse_date`.  The mutable field `reference_time` of the
`DateParser` instance is threaded explicitly: `parse_date` consumes a
state and returns the state left behind for later calls.  The dateutil
fallback `dateutil_parser.parse(text, fuzzy=True, default=reference_time)`
is an external library call, modelled as a function parameter returning
`none` when the library raises. -/

namespace DatePrecision

/-- Precision tag for a date with a specific time. -/
def EXACT : PyStr := S "exact"

/-- Precision tag for a specific day. -/
def DAY : PyStr := S "day"

/-- Precision tag for a week-scale offset. -/
def WEEK : PyStr := S "week"

/-- Precision tag for a month-scale offset. -/
def MONTH : PyStr := S "month"

end DatePrecision

/-- Result dictionary of `parse_date`: raw text, optional ISO string,
optional precision tag, and a confidence (floats `0.8`, `0.6`, `0.0`
modelled as exact rationals; only these three constants occur). -/
structure StructuredDate where
  raw : PyStr
  parsed : Option PyStr
  precision : Option PyStr
  confidence : ℚ
  deriving Repr, DecidableEq

/-- Mutable state of a `DateParser` instance. -/
structure DPState where
  reference_time : PyDateTime
  deriving Repr, DecidableEq

/-- The dateutil fallback parser as an abstract capability: given the text
and the default anchor (`reference_time`), returns a datetime or `none`
when the library call raises. -/
abbrev DateutilFn := PyStr → PyDateTime → Option PyDateTime

/-- Optional context argument of `parse_date`: the `"timestamp"` entry of
the context dictionary, when present. -/
structure PyCtx where
  timestamp : Option PyStr
  deriving Repr, DecidableEq

/-- Weekday table of `_parse_weekday` (dict of name to index). -/
def weekdaysTable : List (PyStr × Nat) :=
  [(S "monday", 0), (S "tuesday", 1), (S "wednesday", 2), (S "thursday", 3),
   (S "friday", 4), (S "saturday", 5), (S "sunday", 6)]

/-- Month table of `_parse_month_day`. -/
def monthsTable : List (PyStr × Nat) :=
  [(S "jan", 1), (S "feb", 2), (S "mar", 3), (S "apr", 4), (S "may", 5),
   (S "jun", 6), (S "jul", 7), (S "aug", 8), (S "sep", 9), (S "oct", 10),
   (S "nov", 11), (S "dec", 12)]

/-- Lookup in an association list of `PyStr` keys. -/
def assocLookup (tbl : List (PyStr × Nat)) (k : PyStr) : Option Nat :=
  (tbl.find? (fun p => p.1 = k)).map Prod.snd

/-- Interpreter `_parse_weekday`: the result pair of the source function,
`Except.error` modelling an uncaught exception (`KeyError`). -/
def lparse_weekday (groups : List (Option PyStr)) (ref : PyDateTime) :
    Except Unit (Option PyDateTime × Option PyStr) :=
  let modifier : Option PyStr := if 1 < groups.length then groups.headD none else none
  match groups.getLast? with
  | none => .error ()
  | some none => .error ()
  | some (some weekday) =>
    match assocLookup weekdaysTable weekday with
    | none => .error ()
    | some target_weekday =>
      let current_weekday := ref.weekday
      let days_ahead : Int :=
        if modifier = some (S "next")
            ∨ (¬ pyTruthyOptStr modifier ∧ target_weekday ≤ current_weekday) then
          let d : Int := (target_weekday : Int) - current_weekday
          if d ≤ 0 then d + 7 else d
        else
          let d : Int := (target_weekday : Int) - current_weekday
          if d < 0 then d + 7 else d
      .ok (some ((ref.addDays days_ahead).atMidnight), some DatePrecision.DAY)

/-- Interpreter `_parse_relative_day` for `today`, `tomorrow`, `tonight`. -/
def lparse_relative_day (groups : List (Option PyStr)) (ref : PyDateTime) :
    Except Unit (Option PyDateTime × Option PyStr) :=
  match groups.headD none with
  | none => .error ()
  | some w =>
    if w = S "today" then .ok (some ref.atMidnight, some DatePrecision.DAY)
    else if w = S "tomorrow" then
      .ok (some ((ref.addDays 1).atMidnight), some DatePrecision.DAY)
    else if w = S "tonight" then
      match ref.replaceHM 20 0 with
      | some dt => .ok (some dt, some DatePrecision.EXACT)
      | none => .error ()
    else .error ()

/-- Python `str.rstrip('s')`. -/
def rstripS (s : PyStr) : PyStr :=
  (s.reverse.dropWhile (fun c => c = 's')).reverse

/-- Interpreter `_parse_relative_time` for `in N units` and
`N units from now/later`. -/
def lparse_relative_time (groups : List (Option PyStr)) (ref : PyDateTime) :
    Except Unit (Option PyDateTime × Option PyStr) :=
  if 2 ≤ groups.length then
    match groups.headD none, groups.getD 1 none with
    | some g0, some g1 =>
      match pyInt g0 with
      | .error _ => .error ()
      | .ok amount =>
        let unit := rstripS g1
        if unit = S "day" then
          .ok (some ((ref.addDays amount).atMidnight), some DatePrecision.DAY)
        else if unit = S "week" then
          .ok (some ((ref.addDays (7 * amount)).atMidnight), some DatePrecision.WEEK)
        else if unit = S "month" then
          .ok (some ((ref.addDays (amount * 30)).atMidnight), some DatePrecision.MONTH)
        else if unit = S "hour" then
          .ok (some (ref.addHours amount), some DatePrecision.EXACT)
        else if unit = S "minute" then
          .ok (some (ref.addMinutes amount), some DatePrecision.EXACT)
        else .ok (none, none)
    | _, _ => .error ()
  else .ok (none, none)

/-- Interpreter `_parse_date_format` for `M/D/Y` numeric dates (with the
`D/M/Y` retry on an invalid date). -/
def lparse_date_format (groups : List (Option PyStr)) :
    Except Unit (Option PyDateTime × Option PyStr) :=
  match groups.headD none, groups.getD 1 none, groups.getD 2 none with
  | some g0, some g1, some g2 =>
    match pyInt g0, pyInt g1, pyInt g2 with
    | .ok month, .ok day, .ok year0 =>
      let year : Nat := if year0 < 100 then (if year0 < 50 then year0 + 2000 else year0 + 1900) else year0
      match datetimeNew year month day with
      | some dt => .ok (some dt, some DatePrecision.DAY)
      | none =>
        match datetimeNew year day month with
        | some dt => .ok (some dt, some DatePrecision.DAY)
        | none => .ok (none, none)
    | _, _, _ => .error ()
  | _, _, _ => .error ()

/-- Interpreter `_parse_month_day` for `15 jan` style dates: uses the
current year, rolling to the next year when the date precedes the
reference (a naive/aware comparison raises `TypeError`, uncaught there). -/
def lparse_month_day (groups : List (Option PyStr)) (ref : PyDateTime) :
    Except Unit (Option PyDateTime × Option PyStr) :=
  match groups.headD none, groups.getD 1 none with
  | some g0, some g1 =>
    match pyInt g0 with
    | .error _ => .error ()
    | .ok day =>
      match assocLookup monthsTable g1 with
      | none => .ok (none, none)
      | some month =>
        let year := ref.year
        match datetimeNew year month day with
        | none => .ok (none, none)
        | some target =>
          match target.lt ref with
          | .error _ => .error ()
          | .ok true =>
            match datetimeNew (year + 1) month day with
            | none => .ok (none, none)
            | some target2 => .ok (some target2, some DatePrecision.DAY)
          | .ok false => .ok (some target, some DatePrecision.DAY)
  | _, _ => .error ()

/-- Interpreter `_parse_time` for clock times such as `at 3:30 pm`;
12-hour conversion, combined with the reference day (`replace` raising on
an out-of-range hour is modelled by the validating `replace`). -/
def lparse_time (groups : List (Option PyStr)) (ref : PyDateTime) :
    Except Unit (Option PyDateTime × Option PyStr) :=
  match groups.headD none with
  | none => .error ()
  | some g0 =>
    match pyInt g0 with
    | .error _ => .error ()
    | .ok hour0 =>
      match (if pyTruthyOptStr (groups.getD 1 none) then
               pyInt ((groups.getD 1 none).getD []) else .ok 0) with
      | .error _ => .error ()
      | .ok minute =>
        let ampm : Option PyStr := if 2 < groups.length then groups.getD 2 none else none
        let hour :=
          match ampm with
          | some ap =>
            if pyLower ap = S "pm" ∧ hour0 ≠ 12 then hour0 + 12
            else if pyLower ap = S "am" ∧ hour0 = 12 then 0
            else hour0
          | none => hour0
        match ref.replaceHMS0 hour minute with
        | none => .error ()
        | some dt => .ok (some dt, some DatePrecision.EXACT)

/-- Names of the interpreter functions in the pattern table. -/
inductive DPFunc where
  | weekday | relativeDay | relativeTime | dateFormat | monthDay | timeOfDay
  deriving Repr, DecidableEq

/-- Dispatch an interpreter function on the groups of a match. -/
def runDPFunc (fid : DPFunc) (groups : List (Option PyStr)) (ref : PyDateTime) :
    Except Unit (Option PyDateTime × Option PyStr) :=
  match fid with
  | .weekday => lparse_weekday groups ref
  | .relativeDay => lparse_relative_day groups ref
  | .relativeTime => lparse_relative_time groups ref
  | .dateFormat => lparse_date_format groups
  | .monthDay => lparse_month_day groups ref
  | .timeOfDay => lparse_time groups ref

/-- Pattern `(monday|tuesday|wednesday|thursday|friday|saturday|sunday)`
without the group. -/
def rxWeekdayNames : Rx :=
  Rx.altList [Rx.str "monday", Rx.str "tuesday", Rx.str "wednesday",
    Rx.str "thursday", Rx.str "friday", Rx.str "saturday", Rx.str "sunday"]

/-- Pattern `days?`. -/
def rxDays : Rx := Rx.seq (Rx.str "day") (Rx.opt (Rx.ch 's'))

/-- Pattern `weeks?`. -/
def rxWeeks : Rx := Rx.seq (Rx.str "week") (Rx.opt (Rx.ch 's'))

/-- Pattern `months?`. -/
def rxMonths : Rx := Rx.seq (Rx.str "month") (Rx.opt (Rx.ch 's'))

/-- Pattern `hours?`. -/
def rxHours : Rx := Rx.seq (Rx.str "hour") (Rx.opt (Rx.ch 's'))

/-- Pattern `minutes?`. -/
def rxMinutes : Rx := Rx.seq (Rx.str "minute") (Rx.opt (Rx.ch 's'))

/-- Month-abbreviation alternation `(jan|feb|...|dec)` without the group. -/
def rxMonthAbbrevs : Rx :=
  Rx.altList [Rx.str "jan", Rx.str "feb", Rx.str "mar", Rx.str "apr",
    Rx.str "may", Rx.str "jun", Rx.str "jul", Rx.str "aug", Rx.str "sep",
    Rx.str "oct", Rx.str "nov", Rx.str "dec"]

/-- Sequence of a list of patterns. -/
def rxSeqList (rs : List Rx) : Rx := rs.foldr Rx.seq Rx.eps

/-- The ordered pattern table of `DateParser.__init__`: pattern, number of
groups, interpreter.  Transcribed in declaration order. -/
def dpPatternList : List (Rx × Nat × DPFunc) :=
  [ -- \b(next|this)\s+(monday|...|sunday)\b
    (rxSeqList [Rx.wb, Rx.group 1 (Rx.alt (Rx.str "next") (Rx.str "this")),
       Rx.plus rxS, Rx.group 2 rxWeekdayNames, Rx.wb], 2, .weekday),
    -- \b(monday|...|sunday)\b
    (rxSeqList [Rx.wb, Rx.group 1 rxWeekdayNames, Rx.wb], 1, .weekday),
    -- \b(today|tomorrow|tonight)\b
    (rxSeqList [Rx.wb,
       Rx.group 1 (Rx.altList [Rx.str "today", Rx.str "tomorrow", Rx.str "tonight"]),
       Rx.wb], 1, .relativeDay),
    -- \bin\s+(\d+)\s+(days?|weeks?|months?|hours?|minutes?)\b
    (rxSeqList [Rx.wb, Rx.str "in", Rx.plus rxS, Rx.group 1 (Rx.plus rxD),
       Rx.plus rxS,
       Rx.group 2 (Rx.altList [rxDays, rxWeeks, rxMonths, rxHours, rxMinutes]),
       Rx.wb], 2, .relativeTime),
    -- \b(\d+)\s+(days?|weeks?|months?)\s+(from\s+now|later)\b
    (rxSeqList [Rx.wb, Rx.group 1 (Rx.plus rxD), Rx.plus rxS,
       Rx.group 2 (Rx.altList [rxDays, rxWeeks, rxMonths]), Rx.plus rxS,
       Rx.group 3 (Rx.alt (rxSeqList [Rx.str "from", Rx.plus rxS, Rx.str "now"])
         (Rx.str "later")), Rx.wb], 3, .relativeTime),
    -- \b(\d{1,2})[\/\-](\d{1,2})[\/\-](\d{2,4})\b
    (rxSeqList [Rx.wb, Rx.group 1 rxD12, rxSlashDash, Rx.group 2 rxD12,
       rxSlashDash, Rx.group 3 rxD24, Rx.wb], 3, .dateFormat),
    -- \b(\d{1,2})\s+(jan|...|dec)\b
    (rxSeqList [Rx.wb, Rx.group 1 rxD12, Rx.plus rxS,
       Rx.group 2 rxMonthAbbrevs, Rx.wb], 2, .monthDay),
    -- \bat\s+(\d{1,2}):?(\d{2})?\s*(am|pm)?\b
    (rxSeqList [Rx.wb, Rx.str "at", Rx.plus rxS, Rx.group 1 rxD12,
       Rx.opt (Rx.ch ':'), Rx.opt (Rx.group 2 (Rx.seq rxD rxD)), Rx.star rxS,
       Rx.opt (Rx.group 3 (Rx.alt (Rx.str "am") (Rx.str "pm"))), Rx.wb],
     3, .timeOfDay),
    -- \b(\d{1,2})\s*(am|pm)\b
    (rxSeqList [Rx.wb, Rx.group 1 rxD12, Rx.star rxS,
       Rx.group 2 (Rx.alt (Rx.str "am") (Rx.str "pm")), Rx.wb], 2, .timeOfDay) ]

/-- The pattern loop of `parse_date`: first pattern that matches and whose
interpreter returns a date wins (interpreter exceptions are caught and the
loop continues); the successful result carries confidence `0.8` and the
date formatted by `strftime("%Y-%m-%d")` for day precision, `isoformat()`
otherwise. -/
def tryPatterns (ref : PyDateTime) (origText lowText : PyStr) :
    List (Rx × Nat × DPFunc) → Option StructuredDate
  | [] => none
  | (r, ng, fid) :: rest =>
    match Rx.search r lowText none with
    | none => tryPatterns ref origText lowText rest
    | some (_, caps) =>
      match runDPFunc fid (Rx.groupsOf caps ng) ref with
      | .error _ => tryPatterns ref origText lowText rest
      | .ok (none, _) => tryPatterns ref origText lowText rest
      | .ok (some d, prec) =>
        some { raw := origText,
               parsed := some (if prec = some DatePrecision.DAY then strftimeYMD d
                               else isoformat d),
               precision := prec,
               confidence := 8/10 }

/-- Timestamp of the context, parsed: `context` truthy, its `"timestamp"`
entry truthy, and `datetime.fromisoformat` succeeding on it after
`replace("Z", "+00:00")` (failure is swallowed by the source). -/
def ctxParsedTS (ctx : Option PyCtx) : Option PyDateTime :=
  match ctx with
  | none => none
  | some c =>
    match c.timestamp with
    | none => none
    | some ts =>
      if ts ≠ [] then fromisoformat (pyReplace ts (S "Z") (S "+00:00")) else none

/-- The fallback branch of `parse_date`: dateutil fuzzy parsing, reported
with day precision and confidence `0.6`, or the null result. -/
def dateutilFallback (fn : DateutilFn) (ref : PyDateTime) (text : PyStr) :
    StructuredDate :=
  match fn text ref with
  | some d =>
    { raw := text, parsed := some (strftimeYMD d),
      precision := some DatePrecision.DAY, confidence := 6/10 }
  | none => { raw := text, parsed := none, precision := none, confidence := 0 }

/-- `DateParser.parse_date`, state-passing form: returns the structured
date and the `DateParser` state left for subsequent calls (the source
assigns `self.reference_time` when the context carries a parseable
timestamp). -/
def parse_date (st : DPState) (fn : DateutilFn) (text : PyStr)
    (ctx : Option PyCtx) : StructuredDate × DPState :=
  if text = [] then
    ({ raw := text, parsed := none, precision := none, confidence := 0 }, st)
  else
    let st1 : DPState :=
      match ctxParsedTS ctx with
      | some dt => { reference_time := dt }
      | none => st
    let lowText := pyStrip (pyLower text)
    match tryPatterns st1.reference_time text lowText dpPatternList with
    | some sd => (sd, st1)
    | none => (dateutilFallback fn st1.reference_time text, st1)

/-! ## TaskParser (`backend/ai/nlp/task_parser.py`)

Keyword tables, the extractors, the confidence scorer, the duration
estimator, `parse_task` and `generate_suggestions`.  The spaCy pipeline
`self.nlp` is an external annotation provider, modelled as a function
returning a document of entities and part-of-speech-tagged tokens, or
`none` when its invocation raises. -/

/-- Entity of the annotation output (`ent.label_`, `ent.text`). -/
structure PyEnt where
  label : PyStr
  text : PyStr
  deriving Repr, DecidableEq

/-- Token of the annotation output (`token.pos_`). -/
structure PyTok where
  pos : PyStr
  deriving Repr, DecidableEq

/-- Annotation document (`doc.ents`, iteration over tokens). -/
structure PyDoc where
  ents : List PyEnt
  tokens : List PyTok
  deriving Repr, DecidableEq

/-- The annotation provider: `none` models a raising invocation. -/
abbrev Nlp := PyStr → Option PyDoc

/-- Result record of the pipeline (`ParsedTask` dataclass). -/
structure ParsedTask where
  title : PyStr
  description : Option PyStr := none
  priority : PyStr := S "medium"
  due_date : Option StructuredDate := none
  category : Option PyStr := none
  estimated_duration_minutes : Option Nat := none
  confidence : ℚ := 0
  raw_input : PyStr := []
  deriving Repr, DecidableEq

/-- Metadata values occurring in suggestions. -/
inductive MetaV where
  | s : PyStr → MetaV
  | n : Nat → MetaV
  | ls : List PyStr → MetaV
  deriving Repr, DecidableEq

/-- Suggestion record (`TaskSuggestion` dataclass; `metadata` is never
`None` by the `__post_init__` fixup, so it is a plain list here). -/
structure TaskSuggestion where
  suggestion_type : PyStr
  suggestion : PyStr
  confidence : ℚ
  reasoning : PyStr
  metadata : List (PyStr × MetaV)
  deriving Repr, DecidableEq

/-- Priority keyword table, in declaration (= iteration) order. -/
def priority_keywords : List (PyStr × List PyStr) :=
  [(S "high", [S "urgent", S "asap", S "immediately", S "critical",
     S "emergency", S "high priority", S "important"]),
   (S "medium", [S "soon", S "medium priority", S "moderate", S "normal"]),
   (S "low", [S "someday", S "eventually", S "low priority",
     S "when possible", S "nice to have"])]

/-- Category keyword table, in declaration (= iteration) order. -/
def category_keywords : List (PyStr × List PyStr) :=
  [(S "work", [S "work", S "office", S "meeting", S "project", S "client",
     S "business", S "professional"]),
   (S "personal", [S "personal", S "home", S "family", S "self", S "health",
     S "exercise"]),
   (S "shopping", [S "buy", S "purchase", S "shop", S "get", S "pick up",
     S "order"]),
   (S "finance", [S "pay", S "bill", S "invoice", S "money", S "bank",
     S "budget", S "expense"]),
   (S "learning", [S "learn", S "study", S "course", S "tutorial",
     S "practice", S "research"]),
   (S "social", [S "call", S "email", S "text", S "message", S "contact",
     S "friend", S "social"])]

/-- Numeric-date core of the time patterns: one or two digits, a slash or
hyphen, one or two digits, optionally another slash or hyphen and two to
four digits. -/
def rxNumericDate : Rx :=
  rxSeqList [rxD12, rxSlashDash, rxD12, Rx.opt (Rx.seq rxSlashDash rxD24)]

/-- The `time_patterns` list of `TaskParser.__init__`, with group counts,
in declaration order. -/
def timePatternList : List (Rx × Nat) :=
  [ -- (?:by|due|before|until)\s+(\w+day|\d{1,2}[/-]\d{1,2}(?:[/-]\d{2,4})?)
    (rxSeqList [Rx.altList [Rx.str "by", Rx.str "due", Rx.str "before",
        Rx.str "until"], Rx.plus rxS,
      Rx.group 1 (Rx.alt (Rx.seq (Rx.plus rxW) (Rx.str "day")) rxNumericDate)], 1),
    -- (?:in)\s+(\d+)\s+(days?|weeks?|months?)
    (rxSeqList [Rx.str "in", Rx.plus rxS, Rx.group 1 (Rx.plus rxD),
      Rx.plus rxS, Rx.group 2 (Rx.altList [rxDays, rxWeeks, rxMonths])], 2),
    -- (?:next)\s+(week|month|monday|...|sunday)
    (rxSeqList [Rx.str "next", Rx.plus rxS,
      Rx.group 1 (Rx.altList [Rx.str "week", Rx.str "month", Rx.str "monday",
        Rx.str "tuesday", Rx.str "wednesday", Rx.str "thursday",
        Rx.str "friday", Rx.str "saturday", Rx.str "sunday"])], 1),
    -- (?:tomorrow|today)
    (Rx.alt (Rx.str "tomorrow") (Rx.str "today"), 0),
    -- \d{1,2}[/-]\d{1,2}(?:[/-]\d{2,4})?
    (rxNumericDate, 0),
    -- (?:jan|feb|...|dec)\w*\s+\d{1,2}
    (rxSeqList [rxMonthAbbrevs, Rx.star rxW, Rx.plus rxS, rxD12], 0) ]

/-- The two leading-filler patterns stripped by `_extract_title`. -/
def titlePrefixPatterns : List Rx :=
  [ -- ^(?:task|todo|need to|have to|must|should|remember to)\s+
    rxSeqList [Rx.bol, Rx.altList [Rx.str "task", Rx.str "todo",
      Rx.str "need to", Rx.str "have to", Rx.str "must", Rx.str "should",
      Rx.str "remember to"], Rx.plus rxS],
    -- ^(?:i need to|i have to|i must|i should)\s+
    rxSeqList [Rx.bol, Rx.altList [Rx.str "i need to", Rx.str "i have to",
      Rx.str "i must", Rx.str "i should"], Rx.plus rxS] ]

/-- The pattern the source builds for one priority keyword:
`rf'\\b{re.escape(keyword)}\\b'`.  In a raw f-string `\\b` is the
two-character sequence backslash-backslash-b, which the regex engine reads
as an escaped literal backslash followed by a literal `b` — not the word
boundary `\b`.  The transcription is therefore literal-backslash, `b`, the
keyword, literal-backslash, `b` (`re.escape` only backslash-escapes the
spaces of these keywords, which matches the same text). -/
def rxPriorityStrip (kw : PyStr) : Rx :=
  rxSeqList ([Rx.ch '\\', Rx.ch 'b'] ++ kw.map Rx.ch ++ [Rx.ch '\\', Rx.ch 'b'])

/-- All priority keywords in table iteration order (`.values()` then the
inner lists). -/
def allPriorityKeywords : List PyStr :=
  (priority_keywords.map Prod.snd).foldr (· ++ ·) []

/-- `TaskParser._extract_title`: strip leading fillers, apply the
(ineffective, see `rxPriorityStrip`) priority-keyword substitutions, strip
time expressions, collapse whitespace, truncate to 100 characters, falling
back to the first 100 characters of the input when everything was
removed. -/
def _extract_title (text : PyStr) : PyStr :=
  let c1 := titlePrefixPatterns.foldl (fun t r => Rx.subEmpty r t) text
  let c2 := allPriorityKeywords.foldl (fun t kw => Rx.subEmpty (rxPriorityStrip kw) t) c1
  let c3 := (timePatternList.map Prod.fst).foldl (fun t r => Rx.subEmpty r t) c2
  let c4 := pyJoinSpace (pySplitWs c3)
  if c4 ≠ [] then c4.take 100 else text.take 100

/-- `TaskParser._extract_description`: the full text when longer than 100
characters. -/
def _extract_description (text : PyStr) : Option PyStr :=
  if 100 < text.length then some text else none

/-- Urgency indicators checked by `_extract_priority` after the keyword
table. -/
def urgency_indicators : List PyStr :=
  [S "!", S "urgent", S "asap", S "now", S "immediately"]

/-- `TaskParser._extract_priority`: first keyword tier containing a
substring of the lower-cased text, else `high` on an urgency indicator,
else `medium`. -/
def _extract_priority (text : PyStr) : PyStr :=
  let text_lower := pyLower text
  let fromTable : Option PyStr :=
    priority_keywords.foldl
      (fun acc pk =>
        match acc with
        | some _ => acc
        | none => if pk.2.any (fun kw => pyIn kw text_lower) then some pk.1 else none)
      none
  match fromTable with
  | some p => p
  | none =>
    if urgency_indicators.any (fun w => pyIn w text_lower) then S "high"
    else S "medium"

/-- Literal date words scanned by `_extract_due_date`. -/
def date_words : List PyStr :=
  [S "tomorrow", S "today", S "tonight", S "next week", S "next month",
   S "friday", S "saturday", S "sunday", S "monday", S "tuesday",
   S "wednesday", S "thursday"]

/-- `TaskParser._extract_due_date`: gather candidate expressions (DATE and
TIME entity spans, every time-pattern match — tuples of groups joined with
spaces — and every literal date word contained in the lower-cased text),
parse each with the date parser (threading its mutable state), and keep
the first result of maximal confidence whose `parsed` field is truthy. -/
def _extract_due_date (text : PyStr) (doc : PyDoc) (ctx : Option PyCtx)
    (st : DPState) (fn : DateutilFn) : Option StructuredDate × DPState :=
  let exprs1 := (doc.ents.filter
      (fun e => e.label = S "DATE" ∨ e.label = S "TIME")).map PyEnt.text
  let exprs2 := timePatternList.foldr
      (fun rg acc =>
        ((Rx.findall rg.1 rg.2 text).map
          (fun m => match m with | [x] => x | gs => pyJoinSpace gs)) ++ acc) []
  let exprs3 := date_words.filter (fun w => pyIn w (pyLower text))
  let exprs := exprs1 ++ exprs2 ++ exprs3
  let r := exprs.foldl
      (fun (acc : Option StructuredDate × ℚ × DPState) e =>
        let (best, bestConf, st0) := acc
        let (res, st1) := parse_date st0 fn e ctx
        if bestConf < res.confidence ∧ pyTruthyOptStr res.parsed then
          (some res, res.confidence, st1)
        else (best, bestConf, st1))
      (none, 0, st)
  (r.1, r.2.2)

/-- `TaskParser._extract_category`: count keyword occurrences per category
and return the first category attaining the maximal positive score. -/
def _extract_category (text : PyStr) : Option PyStr :=
  let text_lower := pyLower text
  let scores := (category_keywords.map
      (fun ck => (ck.1, (ck.2.filter (fun kw => pyIn kw text_lower)).length))).filter
      (fun p => 0 < p.2)
  match scores with
  | [] => none
  | first :: rest =>
    some (rest.foldl (fun best p => if best.2 < p.2 then p else best) first).1

/-- `TaskParser._calculate_confidence` (text-length, entity, keyword and
verb factors; exact rational arithmetic in place of binary64, which is
only observed through this scalar). -/
def _calculate_confidence (text : PyStr) (doc : PyDoc) : ℚ :=
  let length_factor : ℚ := min ((text.length : ℚ) / 50) 1
  let entities := (doc.ents.filter (fun e =>
      e.label = S "DATE" ∨ e.label = S "TIME" ∨ e.label = S "PERSON"
        ∨ e.label = S "ORG")).length
  let entity_factor : ℚ := min ((entities : ℚ) / 3) 1
  let total_keywords := (priority_keywords.map (fun pk => pk.2.length)).sum
  let matched := ((priority_keywords.map Prod.snd).foldr (· ++ ·) []).filter
      (fun kw => pyIn kw (pyLower text))
  let keyword_factor : ℚ := (matched.length : ℚ) / (max total_keywords 1)
  let verbs := (doc.tokens.filter (fun t => t.pos = S "VERB")).length
  let structure_factor : ℚ := min ((verbs : ℚ) / 2) 1
  min (length_factor * (2/10) + entity_factor * (3/10) + keyword_factor * (3/10)
        + structure_factor * (2/10)) 1

/-- Truthiness of `Optional[int]` (Python `if x:`). -/
def pyTruthyOptNat : Option Nat → Bool
  | none => false
  | some n => n ≠ 0

/-- The duration keyword table, in declaration (= iteration) order. -/
def duration_indicators : List (PyStr × Nat) :=
  [(S "quick", 30), (S "brief", 45), (S "short", 60),
   (S "meeting", 60), (S "call", 45), (S "email", 20),
   (S "research", 180), (S "analyze", 120), (S "study", 240),
   (S "write", 90), (S "create", 120), (S "design", 180),
   (S "review", 45), (S "check", 30), (S "update", 45),
   (S "plan", 75), (S "organize", 90), (S "setup", 75),
   (S "install", 60), (S "configure", 90), (S "implement", 240),
   (S "project", 480), (S "presentation", 150), (S "report", 240)]

/-- One step of the duration-clue scan: a contained keyword contributes
its minutes, averaged (running, in table order) with the estimate so
far. -/
def durStep (full_text : PyStr) (acc : Option Nat) (kv : PyStr × Nat) : Option Nat :=
  if pyIn kv.1 full_text then
    match acc with
    | none => some kv.2
    | some d => some ((d + kv.2) / 2)
  else acc

/-- The duration-clue scan over the keyword table. -/
def durationKeywordScan (full_text : PyStr) : Option Nat :=
  duration_indicators.foldl (durStep full_text) none

/-- Priority adjustment of a keyword-based estimate: multiplier `1.2` for
high, `0.8` for low, unchanged for medium. -/
def durPriorityAdjust (d : Nat) (priority : PyStr) : Nat :=
  if priority = S "high" then pyIntMul12 d
  else if priority = S "low" then pyIntMul08 d
  else d

/-- Word-count adjustment of a keyword-based estimate: multiplier `1.3`
above 20 words, `0.8` floored at 30 below 5 words. -/
def durWordAdjust (d : Nat) (word_count : Nat) : Nat :=
  if 20 < word_count then pyIntMul13 d
  else if word_count < 5 then max 30 (pyIntMul08 d)
  else d

/-- Adjustments of a keyword-based estimate, in source order. -/
def durationAdjustKeyword (d0 : Nat) (priority : PyStr) (word_count : Nat) : Nat :=
  durWordAdjust (durPriorityAdjust d0 priority) word_count

/-- Word-count bucket base of the fallback estimate. -/
def durFallbackBase (word_count : Nat) : Nat :=
  if word_count < 5 then 45
  else if word_count < 10 then 60
  else if word_count < 20 then 90
  else 150

/-- Fallback estimate when no duration keyword matched: word-count bucket
base, then the priority multiplier (`1.5` for high, `0.7` floored at 30
for low). -/
def durationFallback (word_count : Nat) (priority : PyStr) : Nat :=
  if priority = S "high" then pyIntMul15 (durFallbackBase word_count)
  else if priority = S "low" then max 30 (pyIntMul07 (durFallbackBase word_count))
  else durFallbackBase word_count

/-- `TaskParser.estimate_duration_minutes`: running average of keyword
durations in table order, then the priority and word-count multipliers
(binary64 `int(x * c)` emulated exactly); without a keyword match, the
word-count fallback with its own priority multipliers. -/
def estimate_duration_minutes (t : ParsedTask) : Option Nat :=
  let title := if t.title ≠ [] then pyLower t.title else []
  let description :=
    match t.description with
    | some d => if d ≠ [] then pyLower d else []
    | none => []
  let full_text := pyStrip (title ++ S " " ++ description)
  let word_count := (pySplitWs full_text).length
  let est0 := durationKeywordScan full_text
  if pyTruthyOptNat est0 then
    some (durationAdjustKeyword (est0.getD 0) t.priority word_count)
  else
    some (durationFallback word_count t.priority)

/-- Assembly of the initial `ParsedTask` of `parse_task` (before the
duration estimate is attached). -/
def assembleTask (text : PyStr) (doc : PyDoc) (dd : Option StructuredDate) :
    ParsedTask :=
  { title := _extract_title text,
    description := _extract_description text,
    priority := _extract_priority text,
    due_date := dd,
    category := _extract_category text,
    confidence := _calculate_confidence text doc,
    raw_input := text }

/-- Attaches the duration estimate to an assembled task (the source's
`parsed_task.estimated_duration_minutes = self.estimate_duration_minutes(parsed_task)`). -/
def withDuration (pt : ParsedTask) : ParsedTask :=
  { pt with estimated_duration_minutes := estimate_duration_minutes pt }

/-- `TaskParser.parse_task`: the orchestrator.  Returns `none` when the
annotation provider raises (the source has no handler around `self.nlp`);
otherwise the assembled `ParsedTask` and the date-parser state left
behind. -/
def parse_task (nlp : Nlp) (fn : DateutilFn) (st : DPState) (input_text : PyStr)
    (ctx : Option PyCtx) : Option (ParsedTask × DPState) :=
  if input_text = [] ∨ pyStrip input_text = [] then
    some ({ title := [], confidence := 0, raw_input := input_text }, st)
  else
    match nlp (pyStrip input_text) with
    | none => none
    | some doc =>
      some (withDuration (assembleTask (pyStrip input_text) doc
              (_extract_due_date (pyStrip input_text) doc ctx st fn).1),
        (_extract_due_date (pyStrip input_text) doc ctx st fn).2)

/-- Decimal digits of a natural number as a `PyStr` (for interpolated
reasoning strings). -/
def natStr (n : Nat) : PyStr := (toString n).toList

/-- High/low urgency signal words of the suggestion engine. -/
def priority_signals_high : List PyStr :=
  [S "urgent", S "asap", S "immediately", S "critical", S "emergency", S "now"]

/-- Low-urgency signal words of the suggestion engine. -/
def priority_signals_low : List PyStr :=
  [S "someday", S "eventually", S "when possible", S "nice to have",
   S "optional"]

/-- Rule 1 of `generate_suggestions` (priority clarification). -/
def suggBlock1 (full_text : PyStr) (priority : PyStr) : List TaskSuggestion :=
  let high_signals := (priority_signals_high.filter (fun w => pyIn w full_text)).length
  let low_signals := (priority_signals_low.filter (fun w => pyIn w full_text)).length
  if 0 < high_signals ∧ priority = S "medium" then
    [{ suggestion_type := S "priority_clarification",
       suggestion := S "This task contains urgency indicators - consider setting priority to 'high'",
       confidence := 8/10,
       reasoning := S "Detected " ++ natStr high_signals
         ++ S " urgency keyword(s) but priority is set to medium",
       metadata := [] }]
  else if priority = S "medium" ∧ high_signals = 0 ∧ low_signals = 0 then
    let vague_indicators := [S "should", S "need to", S "have to", S "must",
      S "important"]
    if ¬ vague_indicators.any (fun w => pyIn w full_text)
        ∧ (pySplitWs full_text).length < 5 then
      [{ suggestion_type := S "priority_clarification",
         suggestion := S "Consider specifying the priority level (high/medium/low) for better planning",
         confidence := 5/10,
         reasoning := S "Very brief task with no clear priority indicators",
         metadata := [] }]
    else []
  else []

/-- Rule 2 of `generate_suggestions` (due-date addition). -/
def suggBlock2 (full_text : PyStr) (priority : PyStr)
    (due_date : Option StructuredDate) : List TaskSuggestion :=
  if due_date.isNone then
    let time_sensitive_words := [S "deadline", S "by", S "before", S "until",
      S "due", S "meeting", S "appointment", S "event"]
    let urgency_words := [S "urgent", S "asap", S "soon", S "quickly",
      S "immediately"]
    if (time_sensitive_words ++ urgency_words).any (fun w => pyIn w full_text) then
      [{ suggestion_type := S "due_date_add",
         suggestion := S "This task seems time-sensitive - consider adding a specific due date",
         confidence := 8/10,
         reasoning := S "Task contains time-sensitive or urgency keywords but no due date specified",
         metadata := [] }]
    else if priority = S "high" then
      [{ suggestion_type := S "due_date_add",
         suggestion := S "High priority tasks benefit from having clear deadlines",
         confidence := 7/10,
         reasoning := S "High priority task without a specified due date",
         metadata := [] }]
    else []
  else []

/-- Rule 3 of `generate_suggestions` (description improvement). -/
def suggBlock3 (t : ParsedTask) (title_lower : PyStr) : List TaskSuggestion :=
  if t.title.length < 15 then
    [{ suggestion_type := S "description_improve",
       suggestion := S "Add more specific details about what needs to be accomplished",
       confidence := 7/10,
       reasoning := S "Task title is very brief and may lack clarity",
       metadata := [(S "title_length", MetaV.n t.title.length),
         (S "improvement_type", MetaV.s (S "length")),
         (S "suggested_min_length", MetaV.n 20)] }]
  else if t.description.getD [] = [] ∧ t.title.length < 25 then
    let vague_verbs := [S "do", S "handle", S "deal with", S "work on",
      S "check", S "look at"]
    let found := vague_verbs.filter (fun v => pyIn v title_lower)
    if found ≠ [] then
      [{ suggestion_type := S "description_improve",
         suggestion := S "Clarify the specific actions needed to complete this task",
         confidence := 8/10,
         reasoning := S "Task uses vague action words that could be more specific",
         metadata := [(S "vague_verbs_found", MetaV.ls found),
           (S "improvement_type", MetaV.s (S "specificity")),
           (S "suggestion_examples", MetaV.ls [S "What specific outcome do you want?",
             S "What are the concrete steps?"])] }]
    else []
  else []

/-- Complexity keywords of the breakdown rule. -/
def complex_indicators : List PyStr :=
  [S "project", S "plan", S "organize", S "setup", S "implement",
   S "research", S "analyze"]

/-- Rule 4 of `generate_suggestions` (task breakdown). -/
def suggBlock4 (full_text : PyStr) : List TaskSuggestion :=
  let multiple_actions := ((pySplitWs full_text).filter
      (fun w => w = S "and" ∨ w = S "&" ∨ w = S "then" ∨ w = S "also"
        ∨ w = S "plus")).length
  if complex_indicators.any (fun w => pyIn w full_text) ∨ 2 ≤ multiple_actions then
    if 8 < (pySplitWs full_text).length then
      [{ suggestion_type := S "breakdown",
         suggestion := S "Consider breaking this into smaller, more manageable sub-tasks",
         confidence := 7/10,
         reasoning := S "Task appears complex and could benefit from being divided into steps",
         metadata := [(S "complexity_indicators",
             MetaV.ls (complex_indicators.filter (fun w => pyIn w full_text))),
           (S "multiple_actions_count", MetaV.n multiple_actions),
           (S "word_count", MetaV.n (pySplitWs full_text).length)] }]
    else []
  else []

/-- Rule 5a of `generate_suggestions` (due-date-based reminder): fires
when the due date is truthy with a truthy `parsed` field and no reminder
is present among the suggestions emitted so far. -/
def suggBlock5a (due_date : Option StructuredDate) (sofar : List TaskSuggestion) :
    List TaskSuggestion :=
  let ddTruthy := match due_date with
    | some sd => pyTruthyOptStr sd.parsed
    | none => false
  if ddTruthy = true ∧ ¬ sofar.any (fun s => s.suggestion_type = S "reminder") then
    [{ suggestion_type := S "reminder",
       suggestion := S "Set a reminder 1-2 days before the due date to ensure timely completion",
       confidence := 6/10,
       reasoning := S "Tasks with due dates benefit from advance reminders",
       metadata := [(S "suggested_reminder_days_before", MetaV.n 1),
         (S "reminder_type", MetaV.s (S "due_date_based"))] }]
  else []

/-- Rule 5b of `generate_suggestions` (priority-based reminder): fires only
when no reminder was added by rule 5a, the priority is high and no due
date exists. -/
def suggBlock5b (priority : PyStr) (due_date : Option StructuredDate)
    (reminder_added : Bool) : List TaskSuggestion :=
  if ¬ reminder_added ∧ priority = S "high" ∧ due_date.isNone then
    [{ suggestion_type := S "reminder",
       suggestion := S "Consider setting a regular check-in reminder for this high-priority task",
       confidence := 5/10,
       reasoning := S "High priority tasks benefit from regular progress tracking",
       metadata := [(S "suggested_reminder_frequency", MetaV.s (S "daily")),
         (S "reminder_type", MetaV.s (S "priority_based"))] }]
  else []

/-- Delegation keywords of rule 6. -/
def delegation_keywords : List PyStr :=
  [S "team", S "meeting", S "discuss", S "collaborate", S "share",
   S "delegate", S "assign"]

/-- Rule 6 of `generate_suggestions` (delegation). -/
def suggBlock6 (full_text : PyStr) : List TaskSuggestion :=
  let matched := delegation_keywords.filter (fun kw => pyIn kw full_text)
  if matched ≠ [] then
    [{ suggestion_type := S "delegation",
       suggestion := S "Consider if any part of this task can be delegated or shared with team members",
       confidence := 5/10,
       reasoning := S "Task involves collaborative elements that might allow for delegation",
       metadata := [(S "delegation_indicators", MetaV.ls matched),
         (S "suggested_delegation_type",
           MetaV.s (if matched.contains (S "collaborate") then S "collaborative"
                    else S "assignable")),
         (S "teamwork_complexity",
           MetaV.s (if 2 < matched.length then S "high" else S "medium"))] }]
  else []

/-- `TaskParser.generate_suggestions`: the six rules in source order, each
appending its suggestions; rule 5a consults the suggestions emitted so far
and sets the `reminder_added` flag consulted by rule 5b. -/
def generate_suggestions (t : ParsedTask) : List TaskSuggestion :=
  let title := if t.title ≠ [] then pyLower t.title else []
  let description :=
    match t.description with
    | some d => if d ≠ [] then pyLower d else []
    | none => []
  let full_text := pyStrip (title ++ S " " ++ description)
  let s14 := suggBlock1 full_text t.priority
    ++ suggBlock2 full_text t.priority t.due_date
    ++ suggBlock3 t title
    ++ suggBlock4 full_text
  let b5a := suggBlock5a t.due_date s14
  let reminder_added := b5a ≠ []
  s14 ++ b5a ++ suggBlock5b t.priority t.due_date reminder_added
    ++ suggBlock6 full_text

/-! ## Claim-side definitions -/

/-- Day number of the target weekday inside the reference day's week (the
occurrence of weekday `target` in the Monday-to-Sunday week containing
`ref`), following the spec's reading of "this week's occurrence". -/
def thisWeekOccurrenceDays (ref : PyDateTime) (target : Nat) : Int :=
  ref.days + ((target : Int) - ref.weekday)

/-- Day number of the following week's occurrence of weekday `target`,
following the spec's words "advance to the following week's occurrence". -/
def followingWeekOccurrenceDays (ref : PyDateTime) (target : Nat) : Int :=
  thisWeekOccurrenceDays ref target + 7

/-- Group list handed to `_parse_weekday` by the two weekday patterns:
the two-group pattern supplies the modifier, the one-group pattern does
not. -/
def weekdayGroups (modifier : Option PyStr) (name : PyStr) : List (Option PyStr) :=
  match modifier with
  | none => [some name]
  | some m => [some m, some name]

/-- The weekday-advance condition of the source: a `next` modifier, or no
truthy modifier and a target weekday at or before the current one. -/
def weekdayAdvanceCond (modifier : Option PyStr) (target c : Nat) : Prop :=
  modifier = some (S "next") ∨ (¬ pyTruthyOptStr modifier ∧ target ≤ c)

instance (modifier : Option PyStr) (target c : Nat) :
    Decidable (weekdayAdvanceCond modifier target c) := by
  unfold weekdayAdvanceCond; infer_instance

/-- Days ahead computed by `_parse_weekday`. -/
def weekdayDaysAhead (modifier : Option PyStr) (target c : Nat) : Int :=
  if weekdayAdvanceCond modifier target c then
    if (target : Int) - c ≤ 0 then (target : Int) - c + 7 else (target : Int) - c
  else
    if (target : Int) - c < 0 then (target : Int) - c + 7 else (target : Int) - c

/-! ## Helper lemmas -/

theorem bitLenAux_zero (f : Nat) : bitLenAux f 0 = 0 := by
  cases f <;> simp [bitLenAux]

theorem bitLenAux_pow_le : ∀ (fuel n : Nat), n < fuel → 0 < n →
    2 ^ (bitLenAux fuel n - 1) ≤ n := by
  intro fuel
  induction fuel with
  | zero => intro n h; omega
  | succ f ih =>
    intro n hn hpos
    unfold bitLenAux
    rw [if_neg (by omega)]
    simp only [Nat.add_sub_cancel]
    by_cases h1 : n = 1
    · subst h1
      simp [bitLenAux_zero]
    · have h2 : 2 ≤ n := by omega
      have hdiv : 0 < n / 2 := Nat.div_pos h2 (by omega)
      have hlt : n / 2 < f := lt_of_lt_of_le (Nat.div_lt_self hpos (by omega)) (by omega)
      have hIH := ih (n / 2) hlt hdiv
      have hb1 : 1 ≤ bitLenAux f (n / 2) := by
        cases f with
        | zero => omega
        | succ f2 =>
          unfold bitLenAux
          rw [if_neg (by omega)]
          omega
      calc 2 ^ bitLenAux f (n / 2)
              = 2 * 2 ^ (bitLenAux f (n / 2) - 1) := by
                rw [← pow_succ']
                congr 1
                omega
        _ ≤ 2 * (n / 2) := by omega
        _ ≤ n := Nat.mul_div_le n 2

theorem fpRound53_lb (p : Nat) : p / 2 ≤ fpRound53 p := by
  unfold fpRound53
  by_cases hL : bitLen p ≤ 53
  · rw [if_pos hL]
    exact Nat.div_le_self p 2
  · rw [if_neg hL]
    have hp0 : 0 < p := by
      rcases Nat.eq_zero_or_pos p with h | h
      · rw [h] at hL
        simp [bitLen, bitLenAux] at hL
      · exact h
    have hLlb : 2 ^ (bitLen p - 1) ≤ p :=
      bitLenAux_pow_le (p + 1) p (by omega) hp0
    have hs1 : 2 ^ (bitLen p - 53) * 2 ≤ p := by
      rw [← pow_succ]
      exact le_trans (Nat.pow_le_pow_right (by omega) (by omega)) hLlb
    have hmod : p % 2 ^ (bitLen p - 53) < 2 ^ (bitLen p - 53) :=
      Nat.mod_lt _ (by positivity)
    have hdm : 2 ^ (bitLen p - 53) * (p / 2 ^ (bitLen p - 53))
        + p % 2 ^ (bitLen p - 53) = p := Nat.div_add_mod p (2 ^ (bitLen p - 53))
    have key : p / 2 ≤ p / 2 ^ (bitLen p - 53) * 2 ^ (bitLen p - 53) := by
      rw [mul_comm]
      omega
    split
    · calc p / 2 ≤ p / 2 ^ (bitLen p - 53) * 2 ^ (bitLen p - 53) := key
        _ ≤ (p / 2 ^ (bitLen p - 53) + 1) * 2 ^ (bitLen p - 53) :=
          Nat.mul_le_mul_right _ (by omega)
    · exact key

theorem fpIntMul_lb (d m e : Nat) : d * m / 2 ^ (e + 1) ≤ fpIntMul d m e := by
  unfold fpIntMul
  calc d * m / 2 ^ (e + 1)
      = d * m / 2 / 2 ^ e := by
        rw [Nat.div_div_eq_div_mul, pow_succ, mul_comm (2 ^ e) 2]
    _ ≤ fpRound53 (d * m) / 2 ^ e := Nat.div_le_div_right (fpRound53_lb (d * m))

theorem fpIntMul_ge (c d m e : Nat) (hd : c ≤ d) :
    c * m / 2 ^ (e + 1) ≤ fpIntMul d m e :=
  le_trans (Nat.div_le_div_right (Nat.mul_le_mul_right m hd)) (fpIntMul_lb d m e)

theorem durFold_bound : ∀ (l : List (PyStr × Nat)) (ft : PyStr) (acc : Option Nat),
    (∀ p ∈ l, 20 ≤ p.2) → (∀ x, acc = some x → 20 ≤ x) →
    ∀ y, l.foldl (durStep ft) acc = some y → 20 ≤ y := by
  intro l
  induction l with
  | nil => intro ft acc _ hacc y hy; exact hacc y hy
  | cons hd tl ih =>
    intro ft acc hl hacc y hy
    rw [List.foldl_cons] at hy
    refine ih ft (durStep ft acc hd) (fun p hp => hl p (List.mem_cons_of_mem hd hp)) ?_ y hy
    intro x hx
    unfold durStep at hx
    split at hx
    · match acc, hx with
      | none, hx =>
        cases hx
        exact hl hd (List.mem_cons_self hd tl)
      | some d, hx =>
        cases hx
        have h1 : 20 ≤ d := hacc d rfl
        have h2 : 20 ≤ hd.2 := hl hd (List.mem_cons_self hd tl)
        omega
    · exact hacc x hx

theorem durPriorityAdjust_ge8 (d : Nat) (p : PyStr) (hd : 20 ≤ d) :
    8 ≤ durPriorityAdjust d p := by
  unfold durPriorityAdjust
  split
  · calc (8 : Nat) ≤ 20 * fp12m / 2 ^ (52 + 1) := by decide
      _ ≤ pyIntMul12 d := fpIntMul_ge 20 d fp12m 52 hd
  · split
    · calc (8 : Nat) ≤ 20 * fp08m / 2 ^ (53 + 1) := by decide
        _ ≤ pyIntMul08 d := fpIntMul_ge 20 d fp08m 53 hd
    · omega

theorem durWordAdjust_pos (d wc : Nat) (hd : 8 ≤ d) : 0 < durWordAdjust d wc := by
  unfold durWordAdjust
  split
  · calc (0 : Nat) < 8 * fp13m / 2 ^ (52 + 1) := by decide
      _ ≤ pyIntMul13 d := fpIntMul_ge 8 d fp13m 52 hd
  · split
    · exact lt_of_lt_of_le (by omega) (le_max_left 30 _)
    · omega

theorem durationAdjustKeyword_pos (d0 : Nat) (p : PyStr) (wc : Nat) (hd : 20 ≤ d0) :
    0 < durationAdjustKeyword d0 p wc :=
  durWordAdjust_pos _ wc (durPriorityAdjust_ge8 d0 p hd)

theorem durFallbackBase_ge45 (wc : Nat) : 45 ≤ durFallbackBase wc := by
  unfold durFallbackBase
  split
  · omega
  · split
    · omega
    · split <;> omega

theorem durationFallback_pos (wc : Nat) (p : PyStr) : 0 < durationFallback wc p := by
  unfold durationFallback
  split
  · calc (0 : Nat) < 45 * fp15m / 2 ^ (52 + 1) := by decide
      _ ≤ pyIntMul15 (durFallbackBase wc) :=
        fpIntMul_ge 45 _ fp15m 52 (durFallbackBase_ge45 wc)
  · split
    · exact lt_of_lt_of_le (by omega) (le_max_left 30 _)
    · exact lt_of_lt_of_le (by omega) (durFallbackBase_ge45 wc)

/-! ## Claims -/

/-- C1 counterexample: the claim "estimate_duration_minutes always returns
an integer greater than or equal to 30" fails on the ParsedTask with title
"email a b c d e" (medium priority, six words): the keyword `email`
contributes a base of 20 minutes, no adjustment applies, and 20 is
returned. -/
theorem C1_counterexample :
    estimate_duration_minutes { title := S "email a b c d e" } = some 20
      ∧ ¬ (30 : Nat) ≤ 20 := by
  constructor
  · decide
  · omega

/-- C1, amended: `estimate_duration_minutes` never returns null — it
always returns some positive integer — but the result is not always at
least 30 (a matched duration keyword with a base below 30, such as
`email` with 20 minutes, is returned unadjusted at medium priority and a
word count between 5 and 20). -/
theorem C1_amended (t : ParsedTask) :
    ∃ n, estimate_duration_minutes t = some n ∧ 0 < n := by
  unfold estimate_duration_minutes
  set full_text := pyStrip
    ((if t.title ≠ [] then pyLower t.title else []) ++ S " "
      ++ (match t.description with
          | some d => if d ≠ [] then pyLower d else []
          | none => [])) with hft
  by_cases h : pyTruthyOptNat (durationKeywordScan full_text) = true
  · rw [if_pos h]
    refine ⟨_, rfl, ?_⟩
    have hs : ∃ d0, durationKeywordScan full_text = some d0 := by
      cases hsc : durationKeywordScan full_text with
      | none => rw [hsc] at h; simp [pyTruthyOptNat] at h
      | some d0 => exact ⟨d0, rfl⟩
    obtain ⟨d0, hd0⟩ := hs
    have h20 : 20 ≤ d0 :=
      durFold_bound duration_indicators full_text none (by decide)
        (by intro x hx; cases hx) d0 hd0
    rw [hd0]
    exact durationAdjustKeyword_pos d0 t.priority _ h20
  · rw [if_neg h]
    exact ⟨_, rfl, durationFallback_pos _ t.priority⟩

/-- C2: the claim that every configured priority keyword is stripped from
the title fails because the source builds the pattern with `rf'\\b'`
(a literal backslash-b rather than a word boundary), so the substitution
never matches ordinary text: on input "urgent meeting" the extracted title
still contains the high-priority keyword "urgent".  The code contradicts
its own comment "Remove priority indicators"; the intended pattern is
`rf'\b...'`. -/
theorem C2_keyword_not_stripped :
    _extract_title (S "urgent meeting") = S "urgent meeting"
      ∧ pyIn (S "urgent") (_extract_title (S "urgent meeting")) = true
      ∧ (S "urgent") ∈ (priority_keywords.headD (S "high", [])).2 := by
  refine ⟨by decide, by decide, by decide⟩

/-- C5: with an annotation provider whose invocation raises, `parse_task`
propagates the failure instead of returning a pattern-only ParsedTask:
the call to `self.nlp` has no handler in the source. -/
theorem C5_provider_failure_propagates :
    parse_task (fun _ => none) (fun _ _ => none) ⟨{ days := 0 }⟩
      (S "buy milk") none = none := by
  decide

/-- C9: empty or whitespace-only input short-circuits to a ParsedTask with
empty title and confidence 0 (the date-parser state untouched, the raw
input preserved verbatim). -/
theorem C9_empty_input (nlp : Nlp) (fn : DateutilFn) (st : DPState)
    (input_text : PyStr) (ctx : Option PyCtx) (h : pyStrip input_text = []) :
    parse_task nlp fn st input_text ctx =
      some ({ title := [], confidence := 0, raw_input := input_text }, st) := by
  unfold parse_task
  rw [if_pos (Or.inr h)]

/-- C9 witness: the three-space input. -/
theorem C9_witness :
    pyStrip (S "   ") = []
      ∧ parse_task (fun _ => none) (fun _ _ => none) ⟨{ days := 0 }⟩ (S "   ") none =
        some ({ title := [], confidence := 0, raw_input := S "   " }, ⟨{ days := 0 }⟩) :=
  ⟨by decide, C9_empty_input _ _ _ _ _ (by decide)⟩

/-- C10: priority extraction matches by substring containment, not word
boundaries: any input whose lower-cased text contains an urgency indicator
(even inside a longer word, such as "now" inside "know") while containing
no keyword of the three priority tiers is classified `high`. -/
theorem C10_substring_priority (text : PyStr)
    (hk : ∀ kw ∈ allPriorityKeywords, pyIn kw (pyLower text) = false)
    (hu : urgency_indicators.any (fun w => pyIn w (pyLower text)) = true) :
    _extract_priority text = S "high" := by
  have hmem : ∀ p ∈ priority_keywords, (p.2.any fun kw => pyIn kw (pyLower text)) = false := by
    intro p hp
    rw [List.any_eq_false]
    intro kw hkw
    have hin : kw ∈ allPriorityKeywords := by
      show kw ∈ (priority_keywords.map Prod.snd).foldr (· ++ ·) []
      simp only [priority_keywords, List.mem_cons, List.mem_singleton] at hp
      simp only [priority_keywords, List.map_cons, List.map_nil, List.foldr_cons,
        List.foldr_nil]
      rcases hp with rfl | rfl | rfl | hp
      · exact List.mem_append_left _ hkw
      · exact List.mem_append_right _ (List.mem_append_left _ hkw)
      · exact List.mem_append_right _ (List.mem_append_right _ (List.mem_append_left _ hkw))
      · cases hp
    rw [hk kw hin]
    simp
  have hA : (List.any [S "urgent", S "asap", S "immediately", S "critical",
      S "emergency", S "high priority", S "important"]
        fun kw => pyIn kw (pyLower text)) = false :=
    hmem (S "high", _) (by simp [priority_keywords])
  have hB : (List.any [S "soon", S "medium priority", S "moderate", S "normal"]
        fun kw => pyIn kw (pyLower text)) = false :=
    hmem (S "medium", _) (by simp [priority_keywords])
  have hC : (List.any [S "someday", S "eventually", S "low priority",
      S "when possible", S "nice to have"]
        fun kw => pyIn kw (pyLower text)) = false :=
    hmem (S "low", _) (by simp [priority_keywords])
  unfold _extract_priority
  simp only [priority_keywords, List.foldl_cons, List.foldl_nil, hA, hB, hC,
    Bool.false_eq_true, if_false, hu, if_true]

/-- C10 witness: "i know him" contains the urgency indicator "now" inside
"know" and no tier keyword, and is classified high. -/
theorem C10_witness :
    (∀ kw ∈ allPriorityKeywords, pyIn kw (pyLower (S "i know him")) = false)
      ∧ urgency_indicators.any (fun w => pyIn w (pyLower (S "i know him"))) = true
      ∧ _extract_priority (S "i know him") = S "high" :=
  ⟨by decide, by decide, C10_substring_priority _ (by decide) (by decide)⟩

theorem suggBlock1_no_reminder (ft p : PyStr) :
    (suggBlock1 ft p).filter (fun s => s.suggestion_type = S "reminder") = [] := by
  simp only [suggBlock1]
  split_ifs <;> rfl

theorem suggBlock2_no_reminder (ft p : PyStr) (dd : Option StructuredDate) :
    (suggBlock2 ft p dd).filter (fun s => s.suggestion_type = S "reminder") = [] := by
  simp only [suggBlock2]
  split_ifs <;> rfl

theorem suggBlock3_no_reminder (t : ParsedTask) (tl : PyStr) :
    (suggBlock3 t tl).filter (fun s => s.suggestion_type = S "reminder") = [] := by
  simp only [suggBlock3]
  split_ifs <;> rfl

theorem suggBlock4_no_reminder (ft : PyStr) :
    (suggBlock4 ft).filter (fun s => s.suggestion_type = S "reminder") = [] := by
  simp only [suggBlock4]
  split_ifs <;> rfl

theorem suggBlock6_no_reminder (ft : PyStr) :
    (suggBlock6 ft).filter (fun s => s.suggestion_type = S "reminder") = [] := by
  simp only [suggBlock6]
  split_ifs <;> rfl

theorem suggBlock5a_len (dd : Option StructuredDate) (sofar : List TaskSuggestion) :
    (suggBlock5a dd sofar).length ≤ 1 := by
  simp only [suggBlock5a]
  split_ifs <;> simp

theorem suggBlock5b_len (p : PyStr) (dd : Option StructuredDate) (ra : Bool) :
    (suggBlock5b p dd ra).length ≤ 1 := by
  simp only [suggBlock5b]
  split_ifs <;> simp

theorem suggBlock5a_none (sofar : List TaskSuggestion) : suggBlock5a none sofar = [] := by
  simp [suggBlock5a, pyTruthyOptStr]

theorem suggBlock5b_some (p : PyStr) (sd : StructuredDate) (ra : Bool) :
    suggBlock5b p (some sd) ra = [] := by
  simp [suggBlock5b]

theorem reminder_count_core (s14 b6 : List TaskSuggestion) (p : PyStr)
    (dd : Option StructuredDate)
    (h14 : s14.filter (fun s => s.suggestion_type = S "reminder") = [])
    (h6 : b6.filter (fun s => s.suggestion_type = S "reminder") = []) :
    ((s14 ++ suggBlock5a dd s14
        ++ suggBlock5b p dd (decide (suggBlock5a dd s14 ≠ []))
        ++ b6).filter (fun s => s.suggestion_type = S "reminder")).length ≤ 1 := by
  cases dd with
  | none =>
    rw [List.filter_append, List.filter_append, List.filter_append, h14, h6,
      suggBlock5a_none]
    simp only [List.filter_nil, List.nil_append, List.append_nil, List.length_append,
      List.length_nil]
    calc ((suggBlock5b p none _).filter _).length
        ≤ (suggBlock5b p none _).length := List.length_filter_le _ _
      _ ≤ 1 := suggBlock5b_len _ _ _
  | some sd =>
    rw [List.filter_append, List.filter_append, List.filter_append, h14, h6,
      suggBlock5b_some]
    simp only [List.filter_nil, List.nil_append, List.append_nil, List.length_append,
      List.length_nil, Nat.add_zero]
    calc ((suggBlock5a (some sd) s14).filter _).length
        ≤ (suggBlock5a (some sd) s14).length := List.length_filter_le _ _
      _ ≤ 1 := suggBlock5a_len _ _

/-- C8: `generate_suggestions` emits at most one `reminder` suggestion per
call: the due-date-based reminder (rule 5a) and the priority-based
reminder (rule 5b) are mutually exclusive. -/
theorem C8_at_most_one_reminder (t : ParsedTask) :
    ((generate_suggestions t).filter
      (fun s => s.suggestion_type = S "reminder")).length ≤ 1 := by
  simp only [generate_suggestions]
  refine reminder_count_core _ _ _ _ ?_ ?_
  · rw [List.filter_append, List.filter_append, List.filter_append,
      suggBlock1_no_reminder, suggBlock2_no_reminder, suggBlock3_no_reminder,
      suggBlock4_no_reminder]
    simp
  · exact suggBlock6_no_reminder _

/-- C4 counterexample: a call with a context carrying a parseable
timestamp reassigns the parser's `reference_time`, so the state after the
call differs from the state before it — `parse_date` is not pure with
respect to the `DateParser` instance. -/
theorem C4_counterexample :
    (parse_date ⟨{ days := 0 }⟩ (fun _ _ => none) (S "x")
        (some ⟨some (S "2024-01-05T10:00:00Z")⟩)).2 ≠ ⟨{ days := 0 }⟩ := by
  decide

/-- C4, amended: `parse_date` leaves the parser state unchanged only when
the input is empty or the context carries no parseable timestamp; a
context with a parseable timestamp overwrites `reference_time`, and the
new value persists for later calls. -/
theorem C4_amended (st : DPState) (fn : DateutilFn) (text : PyStr)
    (ctx : Option PyCtx) :
    (parse_date st fn text ctx).2 =
      if text = [] then st
      else
        match ctxParsedTS ctx with
        | some dt => { reference_time := dt }
        | none => st := by
  unfold parse_date
  by_cases h : text = []
  · rw [if_pos h, if_pos h]
  · rw [if_neg h, if_neg h]
    cases hc : ctxParsedTS ctx with
    | none =>
      simp only [hc]
      cases tryPatterns st.reference_time text (pyStrip (pyLower text)) dpPatternList <;> rfl
    | some dt =>
      simp only [hc]
      cases tryPatterns ({ reference_time := dt } : DPState).reference_time text
        (pyStrip (pyLower text)) dpPatternList <;> rfl

theorem extract_title_spec (text : PyStr) (h : text ≠ []) :
    (_extract_title text).length ≤ 100 ∧ _extract_title text ≠ [] := by
  simp only [_extract_title]
  split
  case isTrue hcc =>
    refine ⟨List.length_take_le _ _, ?_⟩
    intro hnil
    rw [List.take_eq_nil_iff] at hnil
    rcases hnil with h0 | h0
    · exact absurd h0 (by omega)
    · exact hcc h0
  case isFalse hcc =>
    refine ⟨List.length_take_le _ _, ?_⟩
    intro hnil
    rw [List.take_eq_nil_iff] at hnil
    rcases hnil with h0 | h0
    · exact absurd h0 (by omega)
    · exact h h0

theorem withDuration_title (pt : ParsedTask) : (withDuration pt).title = pt.title :=
  rfl

theorem assembleTask_title (text : PyStr) (doc : PyDoc) (dd : Option StructuredDate) :
    (assembleTask text doc dd).title = _extract_title text := by
  dsimp only [assembleTask]

/-- C7: for every non-empty, non-whitespace-only input on which the
pipeline returns, the title of the returned ParsedTask has at most 100
characters and is non-empty. -/
theorem C7_title_bounds (nlp : Nlp) (fn : DateutilFn) (st : DPState)
    (input_text : PyStr) (ctx : Option PyCtx) (h : pyStrip input_text ≠ [])
    (task : ParsedTask) (st' : DPState)
    (he : parse_task nlp fn st input_text ctx = some (task, st')) :
    task.title.length ≤ 100 ∧ task.title ≠ [] := by
  have hcond : ¬ (input_text = [] ∨ pyStrip input_text = []) := by
    rintro (rfl | hh)
    · exact h rfl
    · exact h hh
  unfold parse_task at he
  rw [if_neg hcond] at he
  cases hnlp : nlp (pyStrip input_text) with
  | none =>
    rw [hnlp] at he
    cases he
  | some doc =>
    rw [hnlp] at he
    rw [Option.some.injEq, Prod.mk.injEq] at he
    obtain ⟨htask, _⟩ := he
    rw [← htask, withDuration_title, assembleTask_title]
    exact extract_title_spec (pyStrip input_text) h

/-- C7 witness: the input "buy milk" with a provider returning an empty
annotation document. -/
theorem C7_witness :
    pyStrip (S "buy milk") ≠ []
      ∧ ∃ task st', parse_task (fun _ => some ⟨[], []⟩) (fun _ _ => none)
          ⟨{ days := 0 }⟩ (S "buy milk") none = some (task, st')
        ∧ task.title.length ≤ 100 ∧ task.title ≠ [] := by
  refine ⟨by decide, ?_⟩
  obtain ⟨⟨task, st'⟩, hp⟩ : ∃ p, parse_task (fun _ => some ⟨[], []⟩)
      (fun _ _ => none) ⟨{ days := 0 }⟩ (S "buy milk") none = some p := by
    cases hq : parse_task (fun _ => some ⟨[], []⟩) (fun _ _ => none)
        ⟨{ days := 0 }⟩ (S "buy milk") none with
    | none => exact absurd hq (by decide)
    | some p => exact ⟨p, rfl⟩
  exact ⟨task, st', hp,
    C7_title_bounds _ _ _ _ _ (by decide) task st' hp⟩

/-- C3 counterexample: with reference 2024-01-01 (a Monday, day number
19723) and the expression "next friday", the resolver returns the Friday
of the same week (day 19727, four days ahead), not the following week's
occurrence (day 19734) that the claim requires for every "next"
modifier. -/
theorem C3_counterexample :
    lparse_weekday (weekdayGroups (some (S "next")) (S "friday")) { days := 19723 } =
      .ok (some { days := 19727 }, some DatePrecision.DAY)
    ∧ followingWeekOccurrenceDays { days := 19723 } 4 = 19734
    ∧ ((19727 : Int) ≠ 19734) := by
  refine ⟨by rfl, by rfl, by omega⟩

theorem weekday_lt_7 (ref : PyDateTime) : ref.weekday < 7 := by
  unfold PyDateTime.weekday
  have h1 : (0 : Int) ≤ (ref.days + 3) % 7 := Int.emod_nonneg _ (by omega)
  have h2 : (ref.days + 3) % 7 < 7 := Int.emod_lt_of_pos _ (by omega)
  omega

theorem weekday_target_le_6 (name : PyStr) (target : Nat)
    (hw : assocLookup weekdaysTable name = some target) : target ≤ 6 := by
  obtain ⟨p, hf, hsnd⟩ := Option.map_eq_some'.mp hw
  have hp : p ∈ weekdaysTable := List.mem_of_find?_eq_some hf
  simp only [weekdaysTable, List.mem_cons, List.mem_singleton] at hp
  rcases hp with rfl | rfl | rfl | rfl | rfl | rfl | rfl | hp
  · omega
  · omega
  · omega
  · omega
  · omega
  · omega
  · omega
  · cases hp

/-- C3, amended: the resolver returns midnight of the day
`weekdayDaysAhead` days after the reference with precision `day`, where
the advance branch (a `next` modifier, or no modifier and a target weekday
at or before the current one) yields the next occurrence strictly in the
future — one to seven days ahead, crossing into the following week only
when the target is today or earlier in the week — and the other branch
(a `this` modifier, or no modifier and a target later in the week) yields
this week's occurrence, zero to six days ahead. -/
theorem C3_weekday_resolution (ref : PyDateTime) (modifier : Option PyStr)
    (name : PyStr) (target : Nat)
    (hw : assocLookup weekdaysTable name = some target)
    (hm : modifier = none ∨ modifier = some (S "next") ∨ modifier = some (S "this")) :
    lparse_weekday (weekdayGroups modifier name) ref =
      .ok (some ((ref.addDays (weekdayDaysAhead modifier target ref.weekday)).atMidnight),
        some DatePrecision.DAY)
    ∧ (weekdayAdvanceCond modifier target ref.weekday →
        1 ≤ weekdayDaysAhead modifier target ref.weekday
          ∧ weekdayDaysAhead modifier target ref.weekday ≤ 7)
    ∧ (¬ weekdayAdvanceCond modifier target ref.weekday →
        0 ≤ weekdayDaysAhead modifier target ref.weekday
          ∧ weekdayDaysAhead modifier target ref.weekday ≤ 6) := by
  have ht6 : target ≤ 6 := weekday_target_le_6 name target hw
  have hc7 : ref.weekday < 7 := weekday_lt_7 ref
  refine ⟨?_, ?_, ?_⟩
  · rcases hm with rfl | rfl | rfl
    · simp only [lparse_weekday, weekdayGroups, weekdayDaysAhead, weekdayAdvanceCond,
        List.length_singleton, List.getLast?_singleton, hw]
      norm_num [pyTruthyOptStr]
    · simp only [lparse_weekday, weekdayGroups, weekdayDaysAhead, weekdayAdvanceCond,
        List.getLast?_cons_cons, List.getLast?_singleton, hw]
      norm_num [pyTruthyOptStr]
    · simp only [lparse_weekday, weekdayGroups, weekdayDaysAhead, weekdayAdvanceCond,
        List.getLast?_cons_cons, List.getLast?_singleton, hw]
      norm_num [pyTruthyOptStr]
  · intro hcond
    unfold weekdayDaysAhead
    rw [if_pos hcond]
    split <;> omega
  · intro hcond
    unfold weekdayDaysAhead
    rw [if_neg hcond]
    split <;> omega

/-- C3 witness: "next friday" from Monday 2024-01-01 resolves to four days
ahead. -/
theorem C3_witness :
    assocLookup weekdaysTable (S "friday") = some 4
    ∧ lparse_weekday (weekdayGroups (some (S "next")) (S "friday")) { days := 19723 } =
        .ok (some ((({ days := 19723 } : PyDateTime).addDays
            (weekdayDaysAhead (some (S "next")) 4
              (({ days := 19723 } : PyDateTime).weekday))).atMidnight),
          some DatePrecision.DAY) :=
  ⟨by rfl,
    (C3_weekday_resolution { days := 19723 } (some (S "next")) (S "friday") 4
      (by rfl) (Or.inr (Or.inl rfl))).1⟩

theorem runDPFunc_prec (fid : DPFunc) (gs : List (Option PyStr)) (ref : PyDateTime)
    (d : PyDateTime) (prec : Option PyStr)
    (h : runDPFunc fid gs ref = .ok (some d, prec)) : prec.isSome := by
  cases fid <;>
    simp only [runDPFunc, lparse_weekday, lparse_relative_day, lparse_relative_time,
      lparse_date_format, lparse_month_day, lparse_time] at h <;>
    (repeat' split at h) <;>
    first
      | (rw [Except.ok.injEq, Prod.mk.injEq] at h
         obtain ⟨hd2, hp⟩ := h
         first
           | (subst hp; rfl)
           | cases hd2)
      | cases h

theorem tryPatterns_inv : ∀ (l : List (Rx × Nat × DPFunc)) (ref : PyDateTime)
    (ot lt : PyStr) (sd : StructuredDate),
    tryPatterns ref ot lt l = some sd →
    sd.confidence = 8/10 ∧ sd.parsed.isSome ∧ sd.precision.isSome := by
  intro l
  induction l with
  | nil =>
    intro ref ot lt sd h
    unfold tryPatterns at h
    cases h
  | cons e rest ih =>
    intro ref ot lt sd h
    obtain ⟨r, ng, fid⟩ := e
    unfold tryPatterns at h
    cases hs : Rx.search r lt none with
    | none =>
      simp only [hs] at h
      exact ih ref ot lt sd h
    | some mc =>
      obtain ⟨mt, caps⟩ := mc
      simp only [hs] at h
      cases hr : runDPFunc fid (Rx.groupsOf caps ng) ref with
      | error e =>
        simp only [hr] at h
        exact ih ref ot lt sd h
      | ok p =>
        obtain ⟨od, prec⟩ := p
        cases od with
        | none =>
          simp only [hr] at h
          exact ih ref ot lt sd h
        | some dt =>
          simp only [hr, Option.some.injEq] at h
          subst h
          exact ⟨rfl, rfl, runDPFunc_prec fid _ ref dt prec hr⟩

/-- C6: every StructuredDate returned by `parse_date` has a null precision
exactly when its parsed field is null; a null parsed field comes with
confidence 0; every result produced by the pattern table carries
confidence 0.8; every result produced by the dateutil fallback carries
confidence 0.6. -/
theorem C6_structured_date_invariants (st : DPState) (fn : DateutilFn)
    (text : PyStr) (ctx : Option PyCtx) :
    ((parse_date st fn text ctx).1.parsed = none
        ↔ (parse_date st fn text ctx).1.precision = none)
    ∧ ((parse_date st fn text ctx).1.parsed = none
        → (parse_date st fn text ctx).1.confidence = 0)
    ∧ (∀ ref ot lt sd, tryPatterns ref ot lt dpPatternList = some sd
        → sd.confidence = 8/10)
    ∧ (∀ ref t2 d, fn t2 ref = some d
        → (dateutilFallback fn ref t2).confidence = 6/10) := by
  refine ⟨?_, ?_, ?_, ?_⟩
  · unfold parse_date
    by_cases h : text = []
    · rw [if_pos h]
    · rw [if_neg h]
      cases htp : tryPatterns (match ctxParsedTS ctx with
          | some dt => ({ reference_time := dt } : DPState)
          | none => st).reference_time text (pyStrip (pyLower text)) dpPatternList with
      | some sd =>
        simp only [htp]
        obtain ⟨_, hp, hq⟩ := tryPatterns_inv _ _ _ _ _ htp
        constructor
        · intro hc
          rw [hc] at hp
          cases hp
        · intro hc
          rw [hc] at hq
          cases hq
      | none =>
        simp only [htp]
        unfold dateutilFallback
        cases hf : fn text (match ctxParsedTS ctx with
            | some dt => ({ reference_time := dt } : DPState)
            | none => st).reference_time <;> simp [hf]
  · unfold parse_date
    by_cases h : text = []
    · rw [if_pos h]
      intro _
      rfl
    · rw [if_neg h]
      cases htp : tryPatterns (match ctxParsedTS ctx with
          | some dt => ({ reference_time := dt } : DPState)
          | none => st).reference_time text (pyStrip (pyLower text)) dpPatternList with
      | some sd =>
        simp only [htp]
        obtain ⟨_, hp, _⟩ := tryPatterns_inv _ _ _ _ _ htp
        intro hc
        rw [hc] at hp
        cases hp
      | none =>
        simp only [htp]
        unfold dateutilFallback
        cases hf : fn text (match ctxParsedTS ctx with
            | some dt => ({ reference_time := dt } : DPState)
            | none => st).reference_time <;> simp [hf]
  · intro ref ot lt sd hx
    exact (tryPatterns_inv _ ref ot lt sd hx).1
  · intro ref t2 d hf
    unfold dateutilFallback
    rw [hf]

/-- C6 witness: an uninterpretable expression yields the null result with
confidence 0, and the pattern table on "tomorrow" yields confidence
0.8. -/
theorem C6_witness :
    (parse_date ⟨{ days := 19723 }⟩ (fun _ _ => none) (S "zzz") none).1.precision = none
    ∧ (parse_date ⟨{ days := 19723 }⟩ (fun _ _ => none) (S "zzz") none).1.confidence = 0
    ∧ ({ raw := S "tomorrow", parsed := some (S "2024-01-02"),
          precision := some (S "day"), confidence := 8/10 } : StructuredDate).confidence
        = 8/10 := by
  have h := C6_structured_date_invariants ⟨{ days := 19723 }⟩ (fun _ _ => none) (S "zzz") none
  exact ⟨h.1.mp (by decide), h.2.1 (by decide),
    h.2.2.1 { days := 19723 } (S "tomorrow") (S "tomorrow") _ (by rfl)⟩
